import Mathlib

/-!
# AnyButton: a shallow embedding of `src/AnyButton.h` / `src/AnyButton.cpp`

The C++ class `AnyButton` is embedded as a record of its data members and one
Lean function per member function, with explicit state passing.

Modelling conventions:

* `millis()` is an `unsigned long` (32 bit on the target).  Every member
  function that reads the clock takes the reading as a parameter `now : Nat`
  and uses `u32 now`; the readings taken inside one call of `loadState`
  (guard, `changeState`, `lastCheck = millis()`) are the same reading.
* `uint16_t` members are `Nat`; a store into one is an explicit `u16`.
  Operands of mixed `unsigned long` / `uint16_t` expressions are converted to
  `unsigned long`, so subtraction and addition are taken modulo `2 ^ 32`.
* `int` members are `Int`.  The only arithmetic on them is `+ 1`, which is
  undefined in C++ at `INT_MAX`; statements about an arbitrary state that
  involve an increment assume the operand is below `INT_MAX`.
* `loadState` returns the new object; `getStateChanged` and `getStateValue`
  return the new object together with the returned `int`.
* `changeState` is the composition of its three `if` blocks
  (`changeStateDirect`, `changeStateSelect`, `changeStateAutoOff`).
-/

/-- Conversion to `unsigned long` (32 bit). -/
def u32 (n : Nat) : Nat := n % 2 ^ 32

/-- Conversion to `uint16_t`. -/
def u16 (n : Nat) : Nat := n % 2 ^ 16

/-- The enum `AnyButton::InputType`. -/
inductive InputType where
  | TypePush
  | TypeToggle
  deriving DecidableEq, Repr

/-- The enum `AnyButton::OutputMode`. -/
inductive OutputMode where
  | ModeDirect
  | ModeSelect
  deriving DecidableEq, Repr

/-- The enum `AnyButton::OutSpan`. -/
inductive OutSpan where
  | SpanEver
  | SpanOneshot
  deriving DecidableEq, Repr

/-- The data members of `class AnyButton`, with their default member
initialisers. -/
structure AnyButton where
  _type : InputType := InputType.TypePush
  _mode : OutputMode := OutputMode.ModeDirect
  _span : OutSpan := OutSpan.SpanEver
  _selmax : Nat := 2
  _spanms : Nat := 200
  lastState : Int := 0
  nowState : Int := 0
  changed : Bool := false
  autoClose : Bool := false
  outputState : Int := 0
  closeRemain : Nat := 0
  lastCheck : Nat := 0
  lastResShot : Int := -1
  antiChatteringTime : Nat := 5
  deriving DecidableEq, Repr

namespace AnyButton

/-- Member function `void AnyButton::clear()`. -/
def clear (s : AnyButton) : AnyButton :=
  { s with
    lastState := 0
    nowState := 0
    changed := false
    autoClose := false
    outputState := 0
    closeRemain := 0
    lastCheck := 0
    lastResShot := -1 }

/-- Member function `void AnyButton::configButton(InputType, OutputMode, OutSpan)`. -/
def configButton (s : AnyButton) (type : InputType) (mode : OutputMode)
    (span : OutSpan) : AnyButton :=
  clear { s with _type := type, _mode := mode, _span := span }

/-- The constructor `AnyButton() { configButton(TypePush, ModeDirect, SpanEver); }`. -/
def new : AnyButton :=
  configButton {} InputType.TypePush OutputMode.ModeDirect OutSpan.SpanEver

/-- Member function `void setSelectMax(uint16_t num) { _selmax = num; }`; the argument
is converted to `uint16_t` at the call. -/
def setSelectMax (s : AnyButton) (num : Nat) : AnyButton :=
  { s with _selmax := u16 num }

/-- Member function `void setOneshotTime(uint16_t num) { _spanms = num; }`; the
argument is converted to `uint16_t` at the call. -/
def setOneshotTime (s : AnyButton) (num : Nat) : AnyButton :=
  { s with _spanms := u16 num }

/-- First block of `changeState()`: `if (_mode == ModeDirect) { ... }`. -/
def changeStateDirect (s : AnyButton) : AnyButton :=
  if s._mode = OutputMode.ModeDirect then
    { s with outputState := s.nowState + 1, changed := true }
  else s

/-- Second block of `changeState()`: `if (_mode == ModeSelect) { ... }`; the
comparison `outputState > _selmax` is an `int` comparison. -/
def changeStateSelect (s : AnyButton) : AnyButton :=
  if s._mode = OutputMode.ModeSelect then
    let a :=
      if s._type = InputType.TypePush ∧ s.nowState = 1 then
        { s with outputState := s.outputState + 1, changed := true }
      else if s._type = InputType.TypeToggle then
        let b :=
          if s._selmax = 2 then { s with outputState := s.nowState + 1 }
          else { s with outputState := s.outputState + 1 }
        { b with changed := true }
      else s
    if a.outputState > (a._selmax : Int) then { a with outputState := 1 } else a
  else s

/-- Third block of `changeState()`: `if (changed && _span == SpanOneshot) { ... }`;
`millis() + _spanms` is an `unsigned long` stored into the `uint16_t`
`closeRemain`. -/
def changeStateAutoOff (s : AnyButton) (now : Nat) : AnyButton :=
  if s.changed = true ∧ s._span = OutSpan.SpanOneshot then
    { s with closeRemain := u16 (u32 (u32 now + s._spanms)), autoClose := true }
  else s

/-- Member function `void AnyButton::changeState()`: its three consecutive `if`
blocks, in source order. -/
def changeState (s : AnyButton) (now : Nat) : AnyButton :=
  changeStateAutoOff (changeStateSelect (changeStateDirect s)) now

/-- The guard of `loadState`: `(millis() - lastCheck) > antiChatteringTime`,
an `unsigned long` subtraction and comparison. -/
def debouncePass (s : AnyButton) (now : Nat) : Prop :=
  (u32 now + 2 ^ 32 - s.lastCheck) % 2 ^ 32 > s.antiChatteringTime

instance (s : AnyButton) (now : Nat) : Decidable (debouncePass s now) := by
  unfold debouncePass
  infer_instance

/-- Member function `void AnyButton::loadState(int state)`; `lastCheck = millis()`
is executed whether or not the guard held. -/
def loadState (s : AnyButton) (now : Nat) (state : Int) : AnyButton :=
  let s1 :=
    if debouncePass s now then
      let a := { s with nowState := state }
      if a.nowState ≠ a.lastState then
        changeState { a with lastState := a.nowState } now
      else a
    else s
  { s1 with lastCheck := u16 (u32 now) }

/-- Overload `void loadState(bool state) { loadState(state ? 1 : 0); }`. -/
def loadStateBool (s : AnyButton) (now : Nat) (state : Bool) : AnyButton :=
  loadState s now (if state then 1 else 0)

/-- Member function `int AnyButton::getStateChanged()`: the new object and the
returned `res`; `closeRemain < millis()` is an `unsigned long` comparison. -/
def getStateChanged (s : AnyButton) (now : Nat) : AnyButton × Int :=
  if s.changed = true then
    if s.lastResShot ≠ s.outputState then
      ({ s with lastResShot := s.outputState, changed := false }, s.outputState)
    else
      ({ s with changed := false }, -1)
  else if s.autoClose = true ∧ s._span = OutSpan.SpanOneshot ∧ s.closeRemain < u32 now then
    let res : Int := if s.lastResShot ≠ 0 then 0 else -1
    ({ s with lastResShot := res, autoClose := false }, res)
  else
    (s, -1)

/-- Member function `int AnyButton::getStateValue() { return outputState; }`: the (unchanged)
object and the returned value. -/
def getStateValue (s : AnyButton) : AnyButton × Int :=
  (s, s.outputState)

/-! ### Call sequences -/

/-- One call of a public member function, with the clock reading it sees. -/
inductive Op where
  | load (now : Nat) (state : Int)
  | poll (now : Nat)
  | selectMax (num : Nat)
  | oneshotTime (num : Nat)
  | clear
  | config (type : InputType) (mode : OutputMode) (span : OutSpan)
  deriving DecidableEq, Repr

/-- Effect of one call: the new object, and the value returned if the call is
`getStateChanged()`. -/
def step (s : AnyButton) : Op → AnyButton × Option Int
  | Op.load now state => (loadState s now state, none)
  | Op.poll now => ((getStateChanged s now).1, some (getStateChanged s now).2)
  | Op.selectMax num => (setSelectMax s num, none)
  | Op.oneshotTime num => (setOneshotTime s num, none)
  | Op.clear => (clear s, none)
  | Op.config type mode span => (configButton s type mode span, none)

/-- Effect of a sequence of calls: the final object and the values returned by
the `getStateChanged()` calls, in order. -/
def run : AnyButton → List Op → AnyButton × List Int
  | s, [] => (s, [])
  | s, op :: ops =>
    match (step s op).2 with
    | some v => ((run (step s op).1 ops).1, v :: (run (step s op).1 ops).2)
    | none => run (step s op).1 ops

/-- Clock readings of one press/release cycle: the level-1 sample, the poll
after it, the level-0 sample, the poll after it. -/
structure Cycle where
  tPress : Nat
  pPress : Nat
  tRelease : Nat
  pRelease : Nat
  deriving DecidableEq, Repr

/-- One press/release cycle: `loadState(1)`, `getStateChanged()`,
`loadState(0)`, `getStateChanged()`; returns the final object and the two
polled values. -/
def pressRelease (s : AnyButton) (c : Cycle) : AnyButton × (Int × Int) :=
  let a := getStateChanged (loadState s c.tPress 1) c.pPress
  let b := getStateChanged (loadState a.1 c.tRelease 0) c.pRelease
  (b.1, (a.2, b.2))

/-- Consecutive press/release cycles and the pair of polled values of each. -/
def runCycles : AnyButton → List Cycle → AnyButton × List (Int × Int)
  | s, [] => (s, [])
  | s, c :: cs =>
    ((runCycles (pressRelease s c).1 cs).1,
      (pressRelease s c).2 :: (runCycles (pressRelease s c).1 cs).2)

/-- Both samples of every cycle pass the debounce guard of `loadState` in the
state in which they arrive. -/
def cyclesAccepted : AnyButton → List Cycle → Bool
  | _, [] => true
  | s, c :: cs =>
    decide (debouncePass s c.tPress) &&
    decide (debouncePass (getStateChanged (loadState s c.tPress 1) c.pPress).1 c.tRelease) &&
    cyclesAccepted (pressRelease s c).1 cs

/-- The calls that reset the runtime state: `clear()` and `configButton(...)`. -/
def Op.isReset : Op → Bool
  | Op.clear => true
  | Op.config _ _ _ => true
  | _ => false

/-- The call is a poll, or a sample whose level is 0 or 1. -/
def Op.isSampleOrPoll : Op → Bool
  | Op.load _ state => decide (state = 0 ∨ state = 1)
  | Op.poll _ => true
  | _ => false

/-- The sequence consists of polls and of samples none of which produces an
edge: each sample, in the state in which it arrives, fails the debounce guard
or carries the stable level. -/
def noEdge : AnyButton → List Op → Bool
  | _, [] => true
  | s, Op.load now state :: ops =>
    !(decide (debouncePass s now) && decide (state ≠ s.lastState)) &&
      noEdge (loadState s now state) ops
  | s, Op.poll now :: ops => noEdge (getStateChanged s now).1 ops
  | _, _ :: _ => false

/-- Value invariant of the runtime state: the stable level is 0 or 1, the
output is non-negative, it is at least 1 while a change is pending, and in
Direct mode a pending change shows the stable level plus one. -/
def ValueInv (s : AnyButton) : Prop :=
  (s.lastState = 0 ∨ s.lastState = 1) ∧ 0 ≤ s.outputState ∧
  (s.changed = true → 1 ≤ s.outputState) ∧
  (s._mode = OutputMode.ModeDirect → s.changed = true → s.outputState = s.lastState + 1)

instance (s : AnyButton) : Decidable (ValueInv s) := by
  unfold ValueInv
  infer_instance

/-- Armed invariant of the runtime state: while auto-close is armed and no
change is pending, the last reported value is a position (at least 1). -/
def ArmedInv (s : AnyButton) : Prop :=
  s.autoClose = true → s.changed = false → 1 ≤ s.lastResShot

instance (s : AnyButton) : Decidable (ArmedInv s) := by
  unfold ArmedInv
  infer_instance

/-- The most recent result other than -1 in a list of polled values, read in
call order; `init` if there is none. -/
def lastReported (init : Int) (results : List Int) : Int :=
  results.foldl (fun acc v => if v = -1 then acc else v) init

/-- The sample is an accepted edge on which a rule of the transition engine
fires: it passes the debounce guard, differs from the stable level, and the
first two blocks of `changeState()` set `changed`. -/
def firesTransition (s : AnyButton) (now : Nat) (state : Int) : Bool :=
  decide (debouncePass s now) && decide (state ≠ s.lastState) &&
    (changeStateSelect (changeStateDirect
      { s with nowState := state, lastState := state, changed := false })).changed

/-- Some sample of the sequence fires a transition in the state in which it
arrives. -/
def transitionOccurred : AnyButton → List Op → Bool
  | _, [] => false
  | s, Op.load now state :: ops =>
    firesTransition s now state || transitionOccurred (loadState s now state) ops
  | s, op :: ops => transitionOccurred (step s op).1 ops

/-- The sequence consists of samples of level 0 or 1, polls, and
`setSelectMax(n)` calls with `2 ≤ n < 2^16` none of which puts the ceiling below
the output value of the state in which it arrives. -/
def ceilingKept : AnyButton → List Op → Bool
  | _, [] => true
  | s, Op.load now state :: ops =>
    decide (state = 0 ∨ state = 1) && ceilingKept (loadState s now state) ops
  | s, Op.poll now :: ops => ceilingKept (getStateChanged s now).1 ops
  | s, Op.selectMax n :: ops =>
    decide (2 ≤ n ∧ n < 2 ^ 16 ∧ s.outputState ≤ (n : Int)) &&
      ceilingKept (setSelectMax s n) ops
  | _, _ :: _ => false

/-- A burst of samples (time, level) on a monotonic clock below 2^16 in which
every sample is closer than the window `w` to its predecessor, the first one
to the time `last`. -/
def burstWithin (w : Nat) : Nat → List (Nat × Int) → Bool
  | _, [] => true
  | last, p :: ps =>
    decide (last ≤ p.1 ∧ p.1 - last < w ∧ p.1 < 2 ^ 16) && burstWithin w p.1 ps

end AnyButton

open AnyButton

/-! ## Basic facts about the member functions -/

/-- An accepted sample whose level differs from the stable level runs the
transition engine on the object with both levels updated. -/
theorem loadState_edge (s : AnyButton) (now : Nat) (b : Int)
    (hpass : debouncePass s now) (hedge : b ≠ s.lastState) :
    loadState s now b =
      { changeState { s with nowState := b, lastState := b } now with
        lastCheck := u16 (u32 now) } := by
  simp [loadState, hpass, hedge]

/-- The object left by `configButton`, field by field. -/
theorem configButton_mk (s0 : AnyButton) (type : InputType) (mode : OutputMode)
    (span : OutSpan) :
    configButton s0 type mode span =
      ⟨type, mode, span, s0._selmax, s0._spanms, 0, 0, false, false, 0, 0, 0, -1,
        s0.antiChatteringTime⟩ := rfl

/-! ## Direct mode mirrors the level -/

/-- On a cleared Direct button: an accepted level-1 sample is reported as 2,
and a following accepted level-0 sample as 1. -/
theorem direct_press_release (type : InputType) (span : OutSpan)
    (selmax spanms anti : Nat) (t1 p1 t2 p2 : Nat)
    (hpass1 : debouncePass ⟨type, OutputMode.ModeDirect, span, selmax, spanms, 0, 0, false,
      false, 0, 0, 0, -1, anti⟩ t1)
    (hpass2 : debouncePass
      (getStateChanged (loadState ⟨type, OutputMode.ModeDirect, span, selmax, spanms, 0, 0,
        false, false, 0, 0, 0, -1, anti⟩ t1 1) p1).1 t2) :
    (getStateChanged (loadState ⟨type, OutputMode.ModeDirect, span, selmax, spanms, 0, 0,
      false, false, 0, 0, 0, -1, anti⟩ t1 1) p1).2 = 2 ∧
    (getStateChanged (loadState
      (getStateChanged (loadState ⟨type, OutputMode.ModeDirect, span, selmax, spanms, 0, 0,
        false, false, 0, 0, 0, -1, anti⟩ t1 1) p1).1 t2 0) p2).2 = 1 := by
  have h1 : loadState ⟨type, OutputMode.ModeDirect, span, selmax, spanms, 0, 0, false, false,
        0, 0, 0, -1, anti⟩ t1 1 =
      ⟨type, OutputMode.ModeDirect, span, selmax, spanms, 1, 1, true,
        decide (span = OutSpan.SpanOneshot), 2,
        if span = OutSpan.SpanOneshot then u16 (u32 (u32 t1 + spanms)) else 0,
        u16 (u32 t1), -1, anti⟩ := by
    rw [loadState_edge _ t1 1 hpass1 (by simp)]
    cases span <;> simp [changeState, changeStateDirect, changeStateSelect, changeStateAutoOff]
  rw [h1] at hpass2 ⊢
  have h2 : getStateChanged ⟨type, OutputMode.ModeDirect, span, selmax, spanms, 1, 1, true,
        decide (span = OutSpan.SpanOneshot), 2,
        if span = OutSpan.SpanOneshot then u16 (u32 (u32 t1 + spanms)) else 0,
        u16 (u32 t1), -1, anti⟩ p1 =
      (⟨type, OutputMode.ModeDirect, span, selmax, spanms, 1, 1, false,
        decide (span = OutSpan.SpanOneshot), 2,
        if span = OutSpan.SpanOneshot then u16 (u32 (u32 t1 + spanms)) else 0,
        u16 (u32 t1), 2, anti⟩, 2) := by
    simp [getStateChanged]
  rw [h2] at hpass2 ⊢
  refine ⟨rfl, ?_⟩
  rw [loadState_edge _ t2 0 hpass2 (by simp)]
  simp only [changeState, changeStateDirect, changeStateSelect, changeStateAutoOff,
    getStateChanged]
  cases span <;> simp

/-- C1: in Direct output mode, whatever the input kind and the state, a
sample of level `b` in {0,1} that passes the debounce filter and differs from
the stable level makes `getStateValue()` return `b + 1` and marks a change
pending; and on a freshly configured Direct button (kind Push or Toggle) an
accepted level-1 sample followed by `getStateChanged()` returns 2 and a
subsequently accepted level-0 sample followed by `getStateChanged()`
returns 1. -/
theorem direct_mirrors_level
    (s : AnyButton) (now : Nat) (b : Int)
    (hmode : s._mode = OutputMode.ModeDirect) (_hb : b = 0 ∨ b = 1)
    (hpass : debouncePass s now) (hedge : b ≠ s.lastState)
    (s0 : AnyButton) (type : InputType) (span : OutSpan) (t1 p1 t2 p2 : Nat)
    (hpass1 : debouncePass (configButton s0 type OutputMode.ModeDirect span) t1)
    (hpass2 : debouncePass
      (getStateChanged (loadState (configButton s0 type OutputMode.ModeDirect span) t1 1) p1).1
      t2) :
    ((getStateValue (loadState s now b)).2 = b + 1 ∧
      (loadState s now b).changed = true) ∧
    (getStateChanged (loadState (configButton s0 type OutputMode.ModeDirect span) t1 1) p1).2 = 2 ∧
    (getStateChanged (loadState
      (getStateChanged (loadState (configButton s0 type OutputMode.ModeDirect span) t1 1) p1).1
      t2 0) p2).2 = 1 := by
  refine ⟨?_, ?_⟩
  · rw [loadState_edge s now b hpass hedge]
    obtain ⟨ty, mode, sp, selmax, spanms, ls, ns, ch, ac, os, cr, lc, lr, anti⟩ := s
    simp only at hmode
    subst hmode
    simp [getStateValue, changeState, changeStateDirect, changeStateSelect,
      changeStateAutoOff]
    split_ifs <;> simp
  · rw [configButton_mk] at hpass1 hpass2 ⊢
    exact direct_press_release type span _ _ _ t1 p1 t2 p2 hpass1 hpass2

/-- Witness for C1: the default-constructed button sampled at 10 ms and
20 ms. -/
theorem direct_mirrors_level_witness :
    ((getStateValue (loadState AnyButton.new 10 1)).2 = 1 + 1 ∧
      (loadState AnyButton.new 10 1).changed = true) ∧
    (getStateChanged (loadState (configButton AnyButton.new InputType.TypePush
      OutputMode.ModeDirect OutSpan.SpanEver) 10 1) 11).2 = 2 ∧
    (getStateChanged (loadState
      (getStateChanged (loadState (configButton AnyButton.new InputType.TypePush
        OutputMode.ModeDirect OutSpan.SpanEver) 10 1) 11).1
      20 0) 21).2 = 1 :=
  direct_mirrors_level AnyButton.new 10 1 rfl (Or.inr rfl) (by decide) (by decide)
    AnyButton.new InputType.TypePush OutSpan.SpanEver 10 11 20 21 (by decide) (by decide)

/-! ## Push + Select: the counter advances on presses only -/

/-- Advancing a counter that shows `j % N + 1` and wrapping it above the
ceiling `N` gives `(j + 1) % N + 1`. -/
theorem succ_mod_wrap (N j : Nat) (hN : 2 ≤ N) :
    (if N < j % N + 1 + 1 then 1 else j % N + 1 + 1) = (j + 1) % N + 1 := by
  have hlt : j % N < N := Nat.mod_lt _ (by omega)
  rw [Nat.add_mod, Nat.mod_eq_of_lt (show 1 < N by omega)]
  by_cases h : j % N + 1 = N
  · rw [h, Nat.mod_self]
    simp
  · rw [Nat.mod_eq_of_lt (show j % N + 1 < N by omega)]
    have h3 : ¬ N < j % N + 1 + 1 := by omega
    simp [h3]

/-- Consecutive counter values differ when the ceiling is at least 2. -/
theorem succ_mod_ne (N j : Nat) (hN : 2 ≤ N) : (j + 1) % N ≠ j % N := by
  have hlt : j % N < N := Nat.mod_lt _ (by omega)
  rw [Nat.add_mod, Nat.mod_eq_of_lt (show 1 < N by omega)]
  by_cases h : j % N + 1 = N
  · rw [h, Nat.mod_self]
    omega
  · rw [Nat.mod_eq_of_lt (by omega)]
    omega

/-- One accepted press/release cycle of a Push+Select button whose counter
shows `o` with `o + 1` not the last reported value: the press poll returns the
advanced (wrapped) counter, the release poll returns -1, or 0 in Oneshot
span. -/
theorem pressRelease_pushSelect (s : AnyButton) (c : Cycle) (v : Int)
    (hty : s._type = InputType.TypePush) (hmode : s._mode = OutputMode.ModeSelect)
    (hls : s.lastState = 0) (hch : s.changed = false)
    (hv : v = if s.outputState + 1 > (s._selmax : Int) then 1 else s.outputState + 1)
    (hv1 : 1 ≤ v) (hlr : s.lastResShot ≠ v)
    (hacc : cyclesAccepted s [c] = true) :
    (pressRelease s c).2.1 = v ∧
    ((pressRelease s c).2.2 = -1 ∨
      (s._span = OutSpan.SpanOneshot ∧ (pressRelease s c).2.2 = 0)) ∧
    (pressRelease s c).1._type = s._type ∧ (pressRelease s c).1._mode = s._mode ∧
    (pressRelease s c).1._span = s._span ∧ (pressRelease s c).1._selmax = s._selmax ∧
    (pressRelease s c).1.lastState = 0 ∧ (pressRelease s c).1.changed = false ∧
    (pressRelease s c).1.outputState = v ∧
    ((pressRelease s c).1.lastResShot = v ∨ (pressRelease s c).1.lastResShot = 0) := by
  obtain ⟨ty, mode, sp, selmax, spanms, ls, ns, ch, ac, os, cr, lc, lr, anti⟩ := s
  simp only at hty hmode hls hch hv hlr
  subst hty hmode hls hch
  simp only [cyclesAccepted, Bool.and_true, Bool.and_eq_true, decide_eq_true_eq] at hacc
  obtain ⟨hp, hr⟩ := hacc
  have h1 : loadState ⟨InputType.TypePush, OutputMode.ModeSelect, sp, selmax, spanms, 0, ns,
        false, ac, os, cr, lc, lr, anti⟩ c.tPress 1 =
      ⟨InputType.TypePush, OutputMode.ModeSelect, sp, selmax, spanms, 1, 1, true,
        ac || decide (sp = OutSpan.SpanOneshot), v,
        if sp = OutSpan.SpanOneshot then u16 (u32 (u32 c.tPress + spanms)) else cr,
        u16 (u32 c.tPress), lr, anti⟩ := by
    rw [loadState_edge _ _ 1 hp (by simp)]
    simp [changeState, changeStateDirect, changeStateSelect, changeStateAutoOff]
    split_ifs at hv ⊢ <;> cases sp <;> simp_all
  have h2 : getStateChanged ⟨InputType.TypePush, OutputMode.ModeSelect, sp, selmax, spanms, 1,
        1, true, ac || decide (sp = OutSpan.SpanOneshot), v,
        if sp = OutSpan.SpanOneshot then u16 (u32 (u32 c.tPress + spanms)) else cr,
        u16 (u32 c.tPress), lr, anti⟩ c.pPress =
      (⟨InputType.TypePush, OutputMode.ModeSelect, sp, selmax, spanms, 1, 1, false,
        ac || decide (sp = OutSpan.SpanOneshot), v,
        if sp = OutSpan.SpanOneshot then u16 (u32 (u32 c.tPress + spanms)) else cr,
        u16 (u32 c.tPress), v, anti⟩, v) := by
    simp [getStateChanged, hlr]
  rw [h1, h2] at hr
  have h3 : loadState ⟨InputType.TypePush, OutputMode.ModeSelect, sp, selmax, spanms, 1, 1,
        false, ac || decide (sp = OutSpan.SpanOneshot), v,
        if sp = OutSpan.SpanOneshot then u16 (u32 (u32 c.tPress + spanms)) else cr,
        u16 (u32 c.tPress), v, anti⟩ c.tRelease 0 =
      ⟨InputType.TypePush, OutputMode.ModeSelect, sp, selmax, spanms, 0, 0, false,
        ac || decide (sp = OutSpan.SpanOneshot), v,
        if sp = OutSpan.SpanOneshot then u16 (u32 (u32 c.tPress + spanms)) else cr,
        u16 (u32 c.tRelease), v, anti⟩ := by
    rw [loadState_edge _ _ 0 hr (by simp)]
    simp [changeState, changeStateDirect, changeStateSelect, changeStateAutoOff]
    split_ifs at hv ⊢ <;> simp_all
  have hv0 : v ≠ 0 := by omega
  simp only [pressRelease, h1, h2, h3]
  simp only [getStateChanged]
  split_ifs <;> simp_all

/-- Cycles of a Push+Select button under ceiling `N ≥ 2`, started in a state
whose next counter value is `k0 % N + 1`: the `j`-th cycle polls
`(k0 + j) % N + 1` after the press and -1 (or, in Oneshot span, 0) after the
release. -/
theorem runCycles_pushSelect (N : Nat) (hN : 2 ≤ N) :
    ∀ (cs : List Cycle) (s : AnyButton) (k0 : Nat),
      s._type = InputType.TypePush → s._mode = OutputMode.ModeSelect → s._selmax = N →
      s.lastState = 0 → s.changed = false →
      ((k0 % N : Nat) : Int) + 1 =
        (if s.outputState + 1 > (s._selmax : Int) then 1 else s.outputState + 1) →
      s.lastResShot ≠ ((k0 % N : Nat) : Int) + 1 →
      cyclesAccepted s cs = true →
      ∀ j, j < cs.length →
        ∃ r, (runCycles s cs).2[j]? = some ((((k0 + j) % N : Nat) : Int) + 1, r) ∧
          (r = -1 ∨ (s._span = OutSpan.SpanOneshot ∧ r = 0)) := by
  intro cs
  induction cs with
  | nil => intro s k0 _ _ _ _ _ _ _ _ j hj; simp at hj
  | cons c cs ih =>
    intro s k0 hty hmode hsel hls hch hv hlr hacc j hj
    have hacc1 : cyclesAccepted s [c] = true := by
      simp only [cyclesAccepted, Bool.and_eq_true] at hacc ⊢
      exact ⟨hacc.1, trivial⟩
    have hacc2 : cyclesAccepted (pressRelease s c).1 cs = true := by
      simp only [cyclesAccepted, Bool.and_eq_true] at hacc
      exact hacc.2
    obtain ⟨e1, e2, e3, e4, e5, e6, e7, e8, e9, e10⟩ :=
      pressRelease_pushSelect s c (((k0 % N : Nat) : Int) + 1) hty hmode hls hch hv
        (by omega) hlr hacc1
    cases j with
    | zero =>
      refine ⟨(pressRelease s c).2.2, ?_, e2⟩
      simp only [runCycles, List.getElem?_cons_zero, Nat.add_zero]
      rw [← e1]
    | succ j =>
      have hnext : (((k0 + 1) % N : Nat) : Int) + 1 =
          (if (pressRelease s c).1.outputState + 1 > ((pressRelease s c).1._selmax : Int)
            then 1 else (pressRelease s c).1.outputState + 1) := by
        rw [e9, e6, hsel]
        have h := succ_mod_wrap N k0 hN
        have hlt : k0 % N < N := Nat.mod_lt _ (by omega)
        by_cases hc : N < k0 % N + 1 + 1
        · rw [if_pos hc] at h
          rw [if_pos (by omega)]
          omega
        · rw [if_neg hc] at h
          rw [if_neg (by omega)]
          omega
      have hne : (pressRelease s c).1.lastResShot ≠ (((k0 + 1) % N : Nat) : Int) + 1 := by
        have h := succ_mod_ne N k0 hN
        rcases e10 with h10 | h10 <;> rw [h10] <;> omega
      obtain ⟨r, hr1, hr2⟩ := ih (pressRelease s c).1 (k0 + 1) (e3.trans hty)
        (e4.trans hmode) (e6.trans hsel) e7 e8 hnext hne hacc2 j (by simpa using hj)
      refine ⟨r, ?_, ?_⟩
      · simp only [runCycles, List.getElem?_cons_succ]
        rw [hr1]
        have : k0 + 1 + j = k0 + (j + 1) := by ring
        rw [this]
      · rw [e5] at hr2
        exact hr2

/-- C2 (as amended): on a Push+Select button with select ceiling `N ≥ 2` (a
`uint16_t`, so `N < 2^16`), started from reset, with every sample accepted by the debounce filter and
`getStateChanged()` polled once after each sample, the poll after the `k`-th
press returns `((k-1) mod N) + 1` for every `k ≥ 1`, in either span; the poll
after the `k`-th release returns -1, or 0 (the auto-revert report), which is
possible only in Oneshot span. -/
theorem pushSelect_cycles (s0 : AnyButton) (N : Nat) (span : OutSpan) (cs : List Cycle)
    (k : Nat) (hN : 2 ≤ N) (hN16 : N < 2 ^ 16)
    (hacc : cyclesAccepted (configButton (setSelectMax s0 N) InputType.TypePush
      OutputMode.ModeSelect span) cs = true)
    (hk1 : 1 ≤ k) (hk : k ≤ cs.length) :
    ∃ r, (runCycles (configButton (setSelectMax s0 N) InputType.TypePush
        OutputMode.ModeSelect span) cs).2[k - 1]? =
        some ((((k - 1) % N : Nat) : Int) + 1, r) ∧
      (r = -1 ∨ (span = OutSpan.SpanOneshot ∧ r = 0)) := by
  have hsel : (configButton (setSelectMax s0 N) InputType.TypePush OutputMode.ModeSelect
      span)._selmax = N := by
    simp only [configButton_mk, setSelectMax, u16]
    exact Nat.mod_eq_of_lt hN16
  have h := runCycles_pushSelect N hN cs
    (configButton (setSelectMax s0 N) InputType.TypePush OutputMode.ModeSelect span) 0
    rfl rfl hsel rfl rfl
    (by rw [hsel]; simp [configButton_mk])
    (by simp [configButton_mk]) hacc (k - 1) (by omega)
  simpa using h

/-- Witness for C2: ceiling 4, five cycles, the fifth press wraps to 1. -/
theorem pushSelect_cycles_witness :
    ∃ r, (runCycles (configButton (setSelectMax AnyButton.new 4) InputType.TypePush
        OutputMode.ModeSelect OutSpan.SpanEver)
        [⟨10, 11, 20, 21⟩, ⟨30, 31, 40, 41⟩, ⟨50, 51, 60, 61⟩, ⟨70, 71, 80, 81⟩,
          ⟨90, 91, 100, 101⟩]).2[5 - 1]? =
        some ((((5 - 1) % 4 : Nat) : Int) + 1, r) ∧
      (r = -1 ∨ (OutSpan.SpanEver = OutSpan.SpanOneshot ∧ r = 0)) :=
  pushSelect_cycles AnyButton.new 4 OutSpan.SpanEver
    [⟨10, 11, 20, 21⟩, ⟨30, 31, 40, 41⟩, ⟨50, 51, 60, 61⟩, ⟨70, 71, 80, 81⟩,
      ⟨90, 91, 100, 101⟩] 5 (by decide) (by decide) (by decide) (by decide) (by decide)

/-- C2 fails as stated in Oneshot span: with ceiling 4 and the default oneshot
time of 200 ms, press at 10 ms, poll, release at 300 ms, poll - both samples
accepted - the poll after the release returns 0, not -1. -/
theorem pushSelect_release_poll_oneshot :
    cyclesAccepted (configButton (setSelectMax AnyButton.new 4) InputType.TypePush
      OutputMode.ModeSelect OutSpan.SpanOneshot) [⟨10, 11, 300, 301⟩] = true ∧
    (runCycles (configButton (setSelectMax AnyButton.new 4) InputType.TypePush
      OutputMode.ModeSelect OutSpan.SpanOneshot) [⟨10, 11, 300, 301⟩]).2 = [(1, 0)] := by
  decide

/-! ## No duplicate reports -/

/-- The transition engine `changeState` never touches the last reported value. -/
theorem changeState_lastResShot (s : AnyButton) (now : Nat) :
    (changeState s now).lastResShot = s.lastResShot := by
  have h1 : (changeStateDirect s).lastResShot = s.lastResShot := by
    unfold changeStateDirect
    split_ifs <;> rfl
  have h2 : ∀ a : AnyButton, (changeStateSelect a).lastResShot = a.lastResShot := by
    intro a
    unfold changeStateSelect
    dsimp only
    split_ifs <;> rfl
  have h3 : ∀ a : AnyButton, (changeStateAutoOff a now).lastResShot = a.lastResShot := by
    intro a
    unfold changeStateAutoOff
    split_ifs <;> rfl
  rw [changeState, h3, h2, h1]

/-- A sample never touches the last reported value. -/
theorem loadState_lastResShot (s : AnyButton) (now : Nat) (b : Int) :
    (loadState s now b).lastResShot = s.lastResShot := by
  by_cases hp : debouncePass s now
  · by_cases he : b = s.lastState
    · simp [loadState, hp, he]
    · rw [loadState_edge s now b hp he]
      exact changeState_lastResShot _ now
  · simp [loadState, hp]

/-- A poll that returns a value `v ≠ -1` records `v` as last reported, and `v`
differs from the value recorded before. -/
theorem getStateChanged_reported (s : AnyButton) (now : Nat)
    (h : (getStateChanged s now).2 ≠ -1) :
    (getStateChanged s now).1.lastResShot = (getStateChanged s now).2 ∧
      (getStateChanged s now).2 ≠ s.lastResShot := by
  obtain ⟨ty, mode, sp, selmax, spanms, ls, ns, ch, ac, os, cr, lc, lr, anti⟩ := s
  simp only [getStateChanged] at h ⊢
  split_ifs at h ⊢ <;> simp_all
  · exact fun h' => ‹¬lr = os› h'.symm
  · exact fun h' => ‹¬lr = 0› h'.symm

/-- Along any sequence of calls without a reset the polled values form a chain
in which a value `v ≠ -1` is never followed by `v`, and the first polled value
is -1 or differs from the last reported value of the starting state. -/
theorem run_no_duplicate (ops : List Op) :
    ∀ s : AnyButton, (∀ op ∈ ops, Op.isReset op = false) →
      List.Chain' (fun a b : Int => ¬ (a = b ∧ a ≠ -1)) (run s ops).2 ∧
      ∀ h ∈ (run s ops).2.head?, h = -1 ∨ h ≠ s.lastResShot := by
  induction ops with
  | nil => intro s _; simp [run]
  | cons op ops ih =>
    intro s hnr
    have hnr1 : ∀ o ∈ ops, Op.isReset o = false := fun o ho =>
      hnr o (List.mem_cons_of_mem _ ho)
    have hop : Op.isReset op = false := hnr op (List.mem_cons_self _ _)
    cases op with
    | load now b =>
      have e : run s (Op.load now b :: ops) = run (loadState s now b) ops := rfl
      rw [e, ← loadState_lastResShot s now b]
      exact ih _ hnr1
    | selectMax n =>
      have e : run s (Op.selectMax n :: ops) = run (setSelectMax s n) ops := rfl
      rw [e]
      exact ih _ hnr1
    | oneshotTime n =>
      have e : run s (Op.oneshotTime n :: ops) = run (setOneshotTime s n) ops := rfl
      rw [e]
      exact ih _ hnr1
    | clear => simp [Op.isReset] at hop
    | config t m sp => simp [Op.isReset] at hop
    | poll now =>
      have e : run s (Op.poll now :: ops) =
          ((run (getStateChanged s now).1 ops).1,
            (getStateChanged s now).2 :: (run (getStateChanged s now).1 ops).2) := rfl
      rw [e]
      obtain ⟨ih1, ih2⟩ := ih (getStateChanged s now).1 hnr1
      refine ⟨?_, ?_⟩
      · rw [List.chain'_cons']
        refine ⟨?_, ih1⟩
        intro y hy hcon
        obtain ⟨f1, _⟩ := getStateChanged_reported s now hcon.2
        rcases ih2 y hy with h1 | h1
        · exact hcon.2 (hcon.1.trans h1)
        · exact h1 (hcon.1.symm.trans f1.symm)
      · intro h hh
        simp only [List.head?_cons, Option.mem_def, Option.some.injEq] at hh
        subst hh
        by_cases hv : (getStateChanged s now).2 = -1
        · exact Or.inl hv
        · exact Or.inr (getStateChanged_reported s now hv).2

/-- C3: for every configuration and state, along every sequence of calls
without a reset (samples of any level at any time, polls at any time, ceiling
and oneshot-time changes), two consecutive `getStateChanged()` calls never
both return the same value `v ≠ -1` - whether or not `getStateValue()` changed
between them, hence in particular never without such a change. -/
theorem no_duplicate_reports (s : AnyButton) (ops : List Op)
    (hnr : ∀ op ∈ ops, Op.isReset op = false) :
    List.Chain' (fun a b : Int => ¬ (a = b ∧ a ≠ -1)) (run s ops).2 :=
  (run_no_duplicate ops s hnr).1

/-- Witness for C3: press, two polls, release, two polls on the
default-constructed button; the polled values are 2, -1, 1, -1. -/
theorem no_duplicate_reports_witness :
    List.Chain' (fun a b : Int => ¬ (a = b ∧ a ≠ -1))
      (run AnyButton.new [Op.load 10 1, Op.poll 11, Op.poll 12, Op.load 20 0, Op.poll 21,
        Op.poll 22]).2 :=
  no_duplicate_reports AnyButton.new
    [Op.load 10 1, Op.poll 11, Op.poll 12, Op.load 20 0, Op.poll 21, Op.poll 22]
    (by decide)

/-! ## Oneshot auto-revert -/

/-- Unfolding `run` at a poll. -/
theorem run_poll (s : AnyButton) (x : Nat) (ops : List Op) :
    run s (Op.poll x :: ops) =
      ((run (getStateChanged s x).1 ops).1,
        (getStateChanged s x).2 :: (run (getStateChanged s x).1 ops).2) := rfl

/-- Unfolding `run` at a sample. -/
theorem run_load (s : AnyButton) (t : Nat) (b : Int) (ops : List Op) :
    run s (Op.load t b :: ops) = run (loadState s t b) ops := rfl

/-- Polls that find nothing to report return -1 and leave the object alone. -/
theorem run_polls_idle (s : AnyButton) (xs : List Nat) (rest : List Op)
    (h : ∀ x ∈ xs, getStateChanged s x = (s, -1)) :
    run s (xs.map Op.poll ++ rest) =
      ((run s rest).1, List.replicate xs.length (-1) ++ (run s rest).2) := by
  induction xs with
  | nil => simp
  | cons x xs ih =>
    have hx : getStateChanged s x = (s, -1) := h x (List.mem_cons_self _ _)
    have ih1 := ih (fun y hy => h y (List.mem_cons_of_mem _ hy))
    rw [List.map_cons, List.cons_append, run_poll, hx, ih1]
    rfl

/-- C4 (as amended): on a Direct+Oneshot button (input kind Toggle or Push)
with oneshot duration `d`, if a level-1 sample taken at time `t` is accepted by
the debounce filter and changes the stable level, the next `getStateChanged()`
returns 2, and `t + d < 2^16`, then with no further samples every poll at a
time not later than `t + d` returns -1, the first poll at a time later than
`t + d` (below 2^16) returns 0, and every poll after that returns -1. -/
theorem oneshot_fires_once (s : AnyButton) (t p d tl : Nat) (early late : List Nat)
    (hmode : s._mode = OutputMode.ModeDirect) (hspan : s._span = OutSpan.SpanOneshot)
    (hd : s._spanms = d) (hpass : debouncePass s t) (hedge : s.lastState ≠ 1)
    (hret : (getStateChanged (loadState s t 1) p).2 = 2)
    (htd : t + d < 2 ^ 16) (hearly : ∀ x ∈ early, x ≤ t + d)
    (hl : t + d < tl) (hl16 : tl < 2 ^ 16) :
    (run (loadState s t 1)
      (Op.poll p :: (early.map Op.poll ++ Op.poll tl :: late.map Op.poll))).2 =
      2 :: (List.replicate early.length (-1) ++ 0 :: List.replicate late.length (-1)) := by
  obtain ⟨ty, mode, sp, selmax, spanms, ls, ns, ch, ac, os, cr, lc, lr, anti⟩ := s
  simp only at hmode hspan hd hedge
  subst hmode hspan hd
  have h1 : loadState ⟨ty, OutputMode.ModeDirect, OutSpan.SpanOneshot, selmax, spanms, ls, ns,
        ch, ac, os, cr, lc, lr, anti⟩ t 1 =
      ⟨ty, OutputMode.ModeDirect, OutSpan.SpanOneshot, selmax, spanms, 1, 1, true, true, 2,
        t + spanms, u16 (u32 t), lr, anti⟩ := by
    rw [loadState_edge _ _ 1 hpass (fun h => hedge h.symm)]
    have e1 : u32 t = t := Nat.mod_eq_of_lt (by omega)
    have e2 : u32 (t + spanms) = t + spanms := Nat.mod_eq_of_lt (by omega)
    have e3 : u16 (t + spanms) = t + spanms := Nat.mod_eq_of_lt htd
    simp [changeState, changeStateDirect, changeStateSelect, changeStateAutoOff, e1, e2, e3]
  rw [h1] at hret ⊢
  have hlr : lr ≠ 2 := by
    intro h
    subst h
    simp [getStateChanged] at hret
  have h2 : getStateChanged ⟨ty, OutputMode.ModeDirect, OutSpan.SpanOneshot, selmax, spanms, 1,
        1, true, true, 2, t + spanms, u16 (u32 t), lr, anti⟩ p =
      (⟨ty, OutputMode.ModeDirect, OutSpan.SpanOneshot, selmax, spanms, 1, 1, false, true, 2,
        t + spanms, u16 (u32 t), 2, anti⟩, 2) := by
    simp [getStateChanged, hlr]
  have h3 : ∀ x ∈ early, getStateChanged ⟨ty, OutputMode.ModeDirect, OutSpan.SpanOneshot,
        selmax, spanms, 1, 1, false, true, 2, t + spanms, u16 (u32 t), 2, anti⟩ x =
      (⟨ty, OutputMode.ModeDirect, OutSpan.SpanOneshot, selmax, spanms, 1, 1, false, true, 2,
        t + spanms, u16 (u32 t), 2, anti⟩, -1) := by
    intro x hx
    have hx1 : x ≤ t + spanms := hearly x hx
    have e1 : u32 x = x := Nat.mod_eq_of_lt (by omega)
    simp [getStateChanged, e1]
    omega
  have h4 : getStateChanged ⟨ty, OutputMode.ModeDirect, OutSpan.SpanOneshot, selmax, spanms, 1,
        1, false, true, 2, t + spanms, u16 (u32 t), 2, anti⟩ tl =
      (⟨ty, OutputMode.ModeDirect, OutSpan.SpanOneshot, selmax, spanms, 1, 1, false, false, 2,
        t + spanms, u16 (u32 t), 0, anti⟩, 0) := by
    have e1 : u32 tl = tl := Nat.mod_eq_of_lt (by omega)
    simp [getStateChanged, e1, hl]
  have h5 : ∀ x ∈ late, getStateChanged ⟨ty, OutputMode.ModeDirect, OutSpan.SpanOneshot,
        selmax, spanms, 1, 1, false, false, 2, t + spanms, u16 (u32 t), 0, anti⟩ x =
      (⟨ty, OutputMode.ModeDirect, OutSpan.SpanOneshot, selmax, spanms, 1, 1, false, false, 2,
        t + spanms, u16 (u32 t), 0, anti⟩, -1) := by
    intro x _
    simp [getStateChanged]
  have h6 := run_polls_idle _ late [] h5
  simp only [List.append_nil] at h6
  rw [run_poll, h2, run_polls_idle _ early _ h3, run_poll, h4, h6]
  simp [run]

/-- Witness for C4: duration 100, sample at 10 ms, polls at 11, 50, 110, 111
and 200 ms return 2, -1, -1, 0, -1. -/
theorem oneshot_fires_once_witness :
    (run (loadState (setOneshotTime (configButton AnyButton.new InputType.TypeToggle
        OutputMode.ModeDirect OutSpan.SpanOneshot) 100) 10 1)
      (Op.poll 11 :: ([50, 110].map Op.poll ++ Op.poll 111 :: [200].map Op.poll))).2 =
      2 :: (List.replicate [50, 110].length (-1) ++ 0 :: List.replicate [200].length (-1)) :=
  oneshot_fires_once (setOneshotTime (configButton AnyButton.new InputType.TypeToggle
      OutputMode.ModeDirect OutSpan.SpanOneshot) 100) 10 11 100 111 [50, 110] [200]
    rfl rfl (by decide) (by decide) (by decide) (by decide) (by decide) (by decide)
    (by decide) (by decide)

/-- C4 fails as stated, with every time reading below 2^16.  First, when the
accepted level-1 sample does not change the stable level: duration 100, edge at
10 ms, accepted level-1 sample at `t = 50`, next poll returns 2, and the poll
at 120 ms (earlier than `t + d = 150`) returns 0.  Second, when `t + d`
reaches 2^16: duration 10000, accepted level-1 sample at `t = 60000`, next poll
returns 2, and the poll at 60002 ms (earlier than `t + d = 70000`) returns 0. -/
theorem oneshot_early_revert :
    (debouncePass (loadState (setOneshotTime (configButton AnyButton.new InputType.TypeToggle
        OutputMode.ModeDirect OutSpan.SpanOneshot) 100) 10 1) 50 ∧
      (run (setOneshotTime (configButton AnyButton.new InputType.TypeToggle
        OutputMode.ModeDirect OutSpan.SpanOneshot) 100)
        [Op.load 10 1, Op.load 50 1, Op.poll 51, Op.poll 120]).2 = [2, 0]) ∧
    (debouncePass (setOneshotTime (configButton AnyButton.new InputType.TypeToggle
        OutputMode.ModeDirect OutSpan.SpanOneshot) 10000) 60000 ∧
      (run (setOneshotTime (configButton AnyButton.new InputType.TypeToggle
        OutputMode.ModeDirect OutSpan.SpanOneshot) 10000)
        [Op.load 60000 1, Op.poll 60001, Op.poll 60002]).2 = [2, 0]) := by
  decide

/-! ## Debounce -/

/-- The fields `changeState` never writes. -/
theorem changeState_frame (s : AnyButton) (now : Nat) :
    (changeState s now)._type = s._type ∧ (changeState s now)._mode = s._mode ∧
    (changeState s now)._span = s._span ∧ (changeState s now)._selmax = s._selmax ∧
    (changeState s now)._spanms = s._spanms ∧ (changeState s now).lastState = s.lastState ∧
    (changeState s now).nowState = s.nowState ∧ (changeState s now).lastCheck = s.lastCheck ∧
    (changeState s now).antiChatteringTime = s.antiChatteringTime := by
  have h1 : ∀ a : AnyButton, (changeStateDirect a)._type = a._type ∧
      (changeStateDirect a)._mode = a._mode ∧ (changeStateDirect a)._span = a._span ∧
      (changeStateDirect a)._selmax = a._selmax ∧ (changeStateDirect a)._spanms = a._spanms ∧
      (changeStateDirect a).lastState = a.lastState ∧
      (changeStateDirect a).nowState = a.nowState ∧
      (changeStateDirect a).lastCheck = a.lastCheck ∧
      (changeStateDirect a).antiChatteringTime = a.antiChatteringTime := by
    intro a
    unfold changeStateDirect
    split_ifs <;> simp
  have h2 : ∀ a : AnyButton, (changeStateSelect a)._type = a._type ∧
      (changeStateSelect a)._mode = a._mode ∧ (changeStateSelect a)._span = a._span ∧
      (changeStateSelect a)._selmax = a._selmax ∧ (changeStateSelect a)._spanms = a._spanms ∧
      (changeStateSelect a).lastState = a.lastState ∧
      (changeStateSelect a).nowState = a.nowState ∧
      (changeStateSelect a).lastCheck = a.lastCheck ∧
      (changeStateSelect a).antiChatteringTime = a.antiChatteringTime := by
    intro a
    unfold changeStateSelect
    dsimp only
    split_ifs <;> simp
  have h3 : ∀ a : AnyButton, (changeStateAutoOff a now)._type = a._type ∧
      (changeStateAutoOff a now)._mode = a._mode ∧ (changeStateAutoOff a now)._span = a._span ∧
      (changeStateAutoOff a now)._selmax = a._selmax ∧
      (changeStateAutoOff a now)._spanms = a._spanms ∧
      (changeStateAutoOff a now).lastState = a.lastState ∧
      (changeStateAutoOff a now).nowState = a.nowState ∧
      (changeStateAutoOff a now).lastCheck = a.lastCheck ∧
      (changeStateAutoOff a now).antiChatteringTime = a.antiChatteringTime := by
    intro a
    unfold changeStateAutoOff
    split_ifs <;> simp
  obtain ⟨a1, a2, a3, a4, a5, a6, a7, a8, a9⟩ := h1 s
  obtain ⟨b1, b2, b3, b4, b5, b6, b7, b8, b9⟩ := h2 (changeStateDirect s)
  obtain ⟨c1, c2, c3, c4, c5, c6, c7, c8, c9⟩ := h3 (changeStateSelect (changeStateDirect s))
  unfold changeState
  exact ⟨c1.trans (b1.trans a1), c2.trans (b2.trans a2), c3.trans (b3.trans a3),
    c4.trans (b4.trans a4), c5.trans (b5.trans a5), c6.trans (b6.trans a6),
    c7.trans (b7.trans a7), c8.trans (b8.trans a8), c9.trans (b9.trans a9)⟩

/-- A sample that fails the debounce guard only advances `lastCheck`. -/
theorem loadState_dropped (s : AnyButton) (now : Nat) (b : Int)
    (h : ¬ debouncePass s now) :
    loadState s now b = { s with lastCheck := u16 (u32 now) } := by
  simp [loadState, h]

/-- The poll `getStateChanged` does not read `lastCheck`. -/
theorem getStateChanged_lastCheck (s : AnyButton) (c p : Nat) :
    (getStateChanged { s with lastCheck := c } p).2 = (getStateChanged s p).2 := by
  obtain ⟨ty, mode, sp, selmax, spanms, ls, ns, ch, ac, os, cr, lc, lr, anti⟩ := s
  simp only [getStateChanged]
  split_ifs <;> rfl

/-- Configuration, levels and bookkeeping after an accepted edge. -/
theorem loadState_edge_frame (s : AnyButton) (now : Nat) (b : Int)
    (hpass : debouncePass s now) (hedge : b ≠ s.lastState) :
    (loadState s now b)._type = s._type ∧ (loadState s now b)._mode = s._mode ∧
    (loadState s now b)._span = s._span ∧ (loadState s now b)._selmax = s._selmax ∧
    (loadState s now b)._spanms = s._spanms ∧ (loadState s now b).lastState = b ∧
    (loadState s now b).nowState = b ∧ (loadState s now b).lastCheck = u16 (u32 now) ∧
    (loadState s now b).antiChatteringTime = s.antiChatteringTime ∧
    (loadState s now b).lastResShot = s.lastResShot := by
  obtain ⟨c1, c2, c3, c4, c5, c6, c7, _, c9⟩ :=
    changeState_frame { s with nowState := b, lastState := b } now
  rw [loadState_edge s now b hpass hedge]
  exact ⟨c1, c2, c3, c4, c5, c6, c7, rfl, c9, changeState_lastResShot _ now⟩

/-- In Direct mode an accepted edge to level `b` sets the output to `b + 1`
and marks a change pending. -/
theorem loadState_direct_edge (s : AnyButton) (now : Nat) (b : Int)
    (hmode : s._mode = OutputMode.ModeDirect)
    (hpass : debouncePass s now) (hedge : b ≠ s.lastState) :
    (loadState s now b).outputState = b + 1 ∧ (loadState s now b).changed = true := by
  rw [loadState_edge s now b hpass hedge]
  obtain ⟨ty, mode, sp, selmax, spanms, ls, ns, ch, ac, os, cr, lc, lr, anti⟩ := s
  simp only at hmode
  subst hmode
  simp [changeState, changeStateDirect, changeStateSelect, changeStateAutoOff]
  split_ifs <;> simp

/-- C5 (as amended): with debounce window 5 on a freshly configured button, a
level-1 sample given at a time `t1 > 5` is accepted (the stable level becomes
1; in Direct mode the output becomes 2 with a change pending), a level-0 sample
given at `t2` with `t1 ≤ t2 ≤ t1 + 5` is dropped (only the last sample time
changes: `getStateValue()` is unchanged and every later poll returns what it
would have returned without the sample), and a level-0 sample given at `t3`
with `t3 > t2 + 5` is accepted and transitions normally (stable level 0; in
Direct mode output 1 with a change pending); in Direct mode with span SpanEver
the polls after the three samples return 2, -1 and 1.  Times are below 2^16. -/
theorem debounce_drops_rapid_samples (s0 s : AnyButton) (type : InputType)
    (mode : OutputMode) (span : OutSpan) (t1 t2 t3 : Nat)
    (hs : s = configButton s0 type mode span) (hanti : s.antiChatteringTime = 5)
    (h1 : 5 < t1) (h12 : t1 ≤ t2) (h2 : t2 ≤ t1 + 5) (h3 : t2 + 5 < t3)
    (h16 : t3 < 2 ^ 16) :
    (debouncePass s t1 ∧ (loadState s t1 1).lastState = 1 ∧
      (mode = OutputMode.ModeDirect →
        (getStateValue (loadState s t1 1)).2 = 2 ∧ (loadState s t1 1).changed = true)) ∧
    (¬ debouncePass (loadState s t1 1) t2 ∧
      loadState (loadState s t1 1) t2 0 = { loadState s t1 1 with lastCheck := t2 } ∧
      (getStateValue (loadState (loadState s t1 1) t2 0)).2 =
        (getStateValue (loadState s t1 1)).2 ∧
      ∀ p, (getStateChanged (loadState (loadState s t1 1) t2 0) p).2 =
        (getStateChanged (loadState s t1 1) p).2) ∧
    (debouncePass (loadState (loadState s t1 1) t2 0) t3 ∧
      (loadState (loadState (loadState s t1 1) t2 0) t3 0).lastState = 0 ∧
      (mode = OutputMode.ModeDirect →
        (getStateValue (loadState (loadState (loadState s t1 1) t2 0) t3 0)).2 = 1 ∧
        (loadState (loadState (loadState s t1 1) t2 0) t3 0).changed = true)) ∧
    (mode = OutputMode.ModeDirect → span = OutSpan.SpanEver → ∀ p1 p2 p3,
      (run s [Op.load t1 1, Op.poll p1, Op.load t2 0, Op.poll p2, Op.load t3 0,
        Op.poll p3]).2 = [2, -1, 1]) := by
  have hp1 : debouncePass s t1 := by
    subst hs
    simp only [configButton_mk] at hanti
    simp only [configButton_mk, debouncePass, u32, hanti]
    omega
  have hls : s.lastState = 0 := by subst hs; rfl
  have hmode : s._mode = mode := by subst hs; rfl
  have hspan : s._span = span := by subst hs; rfl
  have he1 : (1 : Int) ≠ s.lastState := by rw [hls]; decide
  obtain ⟨_, a2, a3, _, _, a6, _, a8, a9, a10⟩ := loadState_edge_frame s t1 1 hp1 he1
  have hlc1 : (loadState s t1 1).lastCheck = t1 := by
    rw [a8]
    simp only [u16, u32]
    omega
  have hp2 : ¬ debouncePass (loadState s t1 1) t2 := by
    simp only [debouncePass, u32, hlc1, a9, hanti]
    omega
  have hb : loadState (loadState s t1 1) t2 0 = { loadState s t1 1 with lastCheck := t2 } := by
    rw [loadState_dropped _ t2 0 hp2]
    have e : u16 (u32 t2) = t2 := by
      simp only [u16, u32]
      omega
    rw [e]
  have hp3 : debouncePass (loadState (loadState s t1 1) t2 0) t3 := by
    rw [hb]
    simp only [debouncePass, u32, a9, hanti]
    omega
  have he3 : (0 : Int) ≠ (loadState (loadState s t1 1) t2 0).lastState := by
    rw [hb]
    simp only [a6]
    decide
  obtain ⟨_, _, _, _, _, c6, _, _, _, _⟩ := loadState_edge_frame _ t3 0 hp3 he3
  have hmodeb : mode = OutputMode.ModeDirect →
      (loadState (loadState s t1 1) t2 0)._mode = OutputMode.ModeDirect := by
    intro hm
    rw [hb]
    simp only [a2, hmode, hm]
  refine ⟨⟨hp1, a6, ?_⟩, ⟨hp2, hb, ?_, ?_⟩, ⟨hp3, c6, ?_⟩, ?_⟩
  · intro hm
    exact loadState_direct_edge s t1 1 (hmode.trans hm) hp1 he1
  · rw [hb]
    rfl
  · intro p
    rw [hb]
    exact getStateChanged_lastCheck _ t2 p
  · intro hm
    have h := loadState_direct_edge _ t3 0 (hmodeb hm) hp3 he3
    simpa [getStateValue] using h
  · intro hm hsp p1 p2 p3
    subst hm hsp
    rw [configButton_mk] at hs
    subst hs
    simp only at hanti
    have e1 : u16 (u32 t1) = t1 := by simp only [u16, u32]; omega
    have e2 : u16 (u32 t2) = t2 := by simp only [u16, u32]; omega
    have e3 : u16 (u32 t3) = t3 := by simp only [u16, u32]; omega
    have k1 : loadState ⟨type, OutputMode.ModeDirect, OutSpan.SpanEver, s0._selmax, s0._spanms,
          0, 0, false, false, 0, 0, 0, -1, s0.antiChatteringTime⟩ t1 1 =
        ⟨type, OutputMode.ModeDirect, OutSpan.SpanEver, s0._selmax, s0._spanms, 1, 1, true,
          false, 2, 0, t1, -1, s0.antiChatteringTime⟩ := by
      rw [loadState_edge _ t1 1 hp1 (by simp), e1]
      simp [changeState, changeStateDirect, changeStateSelect, changeStateAutoOff]
    have k2 : getStateChanged ⟨type, OutputMode.ModeDirect, OutSpan.SpanEver, s0._selmax,
          s0._spanms, 1, 1, true, false, 2, 0, t1, -1, s0.antiChatteringTime⟩ p1 =
        (⟨type, OutputMode.ModeDirect, OutSpan.SpanEver, s0._selmax, s0._spanms, 1, 1, false,
          false, 2, 0, t1, 2, s0.antiChatteringTime⟩, 2) := by
      simp [getStateChanged]
    have k3 : loadState ⟨type, OutputMode.ModeDirect, OutSpan.SpanEver, s0._selmax, s0._spanms,
          1, 1, false, false, 2, 0, t1, 2, s0.antiChatteringTime⟩ t2 0 =
        ⟨type, OutputMode.ModeDirect, OutSpan.SpanEver, s0._selmax, s0._spanms, 1, 1, false,
          false, 2, 0, t2, 2, s0.antiChatteringTime⟩ := by
      rw [loadState_dropped _ t2 0 (by simp only [debouncePass, u32, hanti]; omega), e2]
    have k4 : getStateChanged ⟨type, OutputMode.ModeDirect, OutSpan.SpanEver, s0._selmax,
          s0._spanms, 1, 1, false, false, 2, 0, t2, 2, s0.antiChatteringTime⟩ p2 =
        (⟨type, OutputMode.ModeDirect, OutSpan.SpanEver, s0._selmax, s0._spanms, 1, 1, false,
          false, 2, 0, t2, 2, s0.antiChatteringTime⟩, -1) := by
      simp [getStateChanged]
    have k5 : loadState ⟨type, OutputMode.ModeDirect, OutSpan.SpanEver, s0._selmax, s0._spanms,
          1, 1, false, false, 2, 0, t2, 2, s0.antiChatteringTime⟩ t3 0 =
        ⟨type, OutputMode.ModeDirect, OutSpan.SpanEver, s0._selmax, s0._spanms, 0, 0, true,
          false, 1, 0, t3, 2, s0.antiChatteringTime⟩ := by
      rw [loadState_edge _ t3 0 (by simp only [debouncePass, u32, hanti]; omega) (by simp),
        e3]
      simp [changeState, changeStateDirect, changeStateSelect, changeStateAutoOff]
    have k6 : getStateChanged ⟨type, OutputMode.ModeDirect, OutSpan.SpanEver, s0._selmax,
          s0._spanms, 0, 0, true, false, 1, 0, t3, 2, s0.antiChatteringTime⟩ p3 =
        (⟨type, OutputMode.ModeDirect, OutSpan.SpanEver, s0._selmax, s0._spanms, 0, 0, false,
          false, 1, 0, t3, 1, s0.antiChatteringTime⟩, 1) := by
      simp [getStateChanged]
    rw [run_load, k1, run_poll, k2, run_load, k3, run_poll, k4, run_load, k5, run_poll, k6]
    rfl

/-- Witness for C5: the default-constructed button sampled at 6, 8 and
14 ms. -/
theorem debounce_drops_rapid_samples_witness :
    (debouncePass AnyButton.new 6 ∧ (loadState AnyButton.new 6 1).lastState = 1 ∧
      (OutputMode.ModeDirect = OutputMode.ModeDirect →
        (getStateValue (loadState AnyButton.new 6 1)).2 = 2 ∧
        (loadState AnyButton.new 6 1).changed = true)) ∧
    (¬ debouncePass (loadState AnyButton.new 6 1) 8 ∧
      loadState (loadState AnyButton.new 6 1) 8 0 =
        { loadState AnyButton.new 6 1 with lastCheck := 8 } ∧
      (getStateValue (loadState (loadState AnyButton.new 6 1) 8 0)).2 =
        (getStateValue (loadState AnyButton.new 6 1)).2 ∧
      ∀ p, (getStateChanged (loadState (loadState AnyButton.new 6 1) 8 0) p).2 =
        (getStateChanged (loadState AnyButton.new 6 1) p).2) ∧
    (debouncePass (loadState (loadState AnyButton.new 6 1) 8 0) 14 ∧
      (loadState (loadState (loadState AnyButton.new 6 1) 8 0) 14 0).lastState = 0 ∧
      (OutputMode.ModeDirect = OutputMode.ModeDirect →
        (getStateValue (loadState (loadState (loadState AnyButton.new 6 1) 8 0) 14 0)).2 = 1 ∧
        (loadState (loadState (loadState AnyButton.new 6 1) 8 0) 14 0).changed = true)) ∧
    (OutputMode.ModeDirect = OutputMode.ModeDirect → OutSpan.SpanEver = OutSpan.SpanEver →
      ∀ p1 p2 p3,
      (run AnyButton.new [Op.load 6 1, Op.poll p1, Op.load 8 0, Op.poll p2, Op.load 14 0,
        Op.poll p3]).2 = [2, -1, 1]) :=
  debounce_drops_rapid_samples AnyButton.new AnyButton.new InputType.TypePush
    OutputMode.ModeDirect OutSpan.SpanEver 6 8 14 rfl rfl (by decide) (by decide) (by decide)
    (by decide) (by decide)

/-- C5 fails as stated: on the default-constructed button (debounce window 5)
the level-1 sample at `t = 0` is dropped (output still 0, no change pending),
the level-0 sample at `t = 2` is dropped, and the level-0 sample at `t = 6`,
only 4 ms after the previous `loadState` call, is dropped as well; the polls
after the three samples all return -1. -/
theorem debounce_scenario_all_dropped :
    ¬ debouncePass AnyButton.new 0 ∧
    (getStateValue (loadState AnyButton.new 0 1)).2 = 0 ∧
    (loadState AnyButton.new 0 1).changed = false ∧
    ¬ debouncePass (loadState (loadState AnyButton.new 0 1) 2 0) 6 ∧
    (run AnyButton.new [Op.load 0 1, Op.poll 1, Op.load 2 0, Op.poll 3, Op.load 6 0,
      Op.poll 7]) =
      ({ AnyButton.new with lastCheck := 6 }, [-1, -1, -1]) := by
  decide

/-! ## The continuous read -/

/-- The poll `getStateChanged` never writes the output value. -/
theorem getStateChanged_outputState (s : AnyButton) (now : Nat) :
    (getStateChanged s now).1.outputState = s.outputState := by
  obtain ⟨ty, mode, sp, selmax, spanms, ls, ns, ch, ac, os, cr, lc, lr, anti⟩ := s
  simp only [getStateChanged]
  split_ifs <;> rfl

/-- Any number of polls leaves the output value as it was. -/
theorem run_polls_outputState (ts : List Nat) :
    ∀ s : AnyButton, (run s (ts.map Op.poll)).1.outputState = s.outputState := by
  induction ts with
  | nil => intro s; rfl
  | cons t ts ih =>
    intro s
    rw [List.map_cons, run_poll]
    exact (ih _).trans (getStateChanged_outputState s t)

/-- C6: `getStateValue()` modifies no field and returns the output value;
`getStateChanged()` never modifies the output value, at any state and time; so
`getStateValue()` returns the same value before and after any number of
polls, whatever they return (a reported auto-revert 0 included). -/
theorem getStateValue_independent (s : AnyButton) (now : Nat) (ts : List Nat) :
    (getStateValue s).1 = s ∧ (getStateValue s).2 = s.outputState ∧
    (getStateChanged s now).1.outputState = s.outputState ∧
    (getStateValue (run s (ts.map Op.poll)).1).2 = (getStateValue s).2 :=
  ⟨rfl, rfl, getStateChanged_outputState s now, run_polls_outputState ts s⟩

/-! ## Reset -/

/-- A sample that produces no edge leaves the output, the pending flag, the
auto-close flag and the stable level as they were. -/
theorem loadState_noEdge (s : AnyButton) (now : Nat) (b : Int)
    (h : ¬ (debouncePass s now ∧ b ≠ s.lastState)) :
    (loadState s now b).outputState = s.outputState ∧
    (loadState s now b).changed = s.changed ∧
    (loadState s now b).autoClose = s.autoClose ∧
    (loadState s now b).lastState = s.lastState := by
  by_cases hp : debouncePass s now
  · have he : b = s.lastState := by
      by_contra hne
      exact h ⟨hp, hne⟩
    simp [loadState, hp, he]
  · simp [loadState, hp]

/-- With no change pending and auto-close disarmed a poll returns -1 and
changes nothing. -/
theorem getStateChanged_idle (s : AnyButton) (now : Nat)
    (hch : s.changed = false) (hac : s.autoClose = false) :
    getStateChanged s now = (s, -1) := by
  simp [getStateChanged, hch, hac]

/-- From a state with nothing pending, polls and samples without an edge
report nothing and do not move the output. -/
theorem run_noEdge (ops : List Op) :
    ∀ s : AnyButton, s.changed = false → s.autoClose = false → noEdge s ops = true →
      (∀ v ∈ (run s ops).2, v = -1) ∧ (run s ops).1.outputState = s.outputState := by
  induction ops with
  | nil => intro s _ _ _; simp [run]
  | cons op ops ih =>
    intro s hch hac hne
    cases op with
    | load now b =>
      simp only [noEdge, Bool.and_eq_true, Bool.not_eq_true', Bool.and_eq_false_imp,
        decide_eq_true_eq, decide_eq_false_iff_not] at hne
      have hno : ¬ (debouncePass s now ∧ b ≠ s.lastState) := fun hc => hne.1 hc.1 hc.2
      obtain ⟨f1, f2, f3, _⟩ := loadState_noEdge s now b hno
      rw [run_load]
      obtain ⟨g1, g2⟩ := ih (loadState s now b) (f2.trans hch) (f3.trans hac) hne.2
      exact ⟨g1, g2.trans f1⟩
    | poll now =>
      simp only [noEdge] at hne
      rw [getStateChanged_idle s now hch hac] at hne
      rw [run_poll, getStateChanged_idle s now hch hac]
      obtain ⟨g1, g2⟩ := ih s hch hac hne
      refine ⟨?_, g2⟩
      intro v hv
      rcases List.mem_cons.mp hv with h | h
      · exact h
      · exact g1 v h
    | selectMax n => simp [noEdge] at hne
    | oneshotTime n => simp [noEdge] at hne
    | clear => simp [noEdge] at hne
    | config t m sp => simp [noEdge] at hne

/-- C7: after any state, `clear()` and `configButton(type, mode, span)` put
every runtime field back to its initial value (stable and pending level 0,
output 0, no change pending, auto-close disarmed, deadline 0, last sample time
0, last reported value -1; `clear()` keeps the configuration,
`configButton` stores the new one), so that until a sample produces a new
edge `getStateValue()` returns 0 and every `getStateChanged()` returns -1, at
any later time. -/
theorem reset_is_total (s : AnyButton) (type : InputType) (mode : OutputMode)
    (span : OutSpan) (ops1 ops2 : List Op)
    (h1 : noEdge (clear s) ops1 = true)
    (h2 : noEdge (configButton s type mode span) ops2 = true) :
    clear s = ⟨s._type, s._mode, s._span, s._selmax, s._spanms, 0, 0, false, false, 0, 0, 0,
      -1, s.antiChatteringTime⟩ ∧
    configButton s type mode span = ⟨type, mode, span, s._selmax, s._spanms, 0, 0, false,
      false, 0, 0, 0, -1, s.antiChatteringTime⟩ ∧
    ((∀ v ∈ (run (clear s) ops1).2, v = -1) ∧
      (getStateValue (run (clear s) ops1).1).2 = 0) ∧
    ((∀ v ∈ (run (configButton s type mode span) ops2).2, v = -1) ∧
      (getStateValue (run (configButton s type mode span) ops2).1).2 = 0) :=
  ⟨rfl, rfl, run_noEdge ops1 (clear s) rfl rfl h1,
    run_noEdge ops2 (configButton s type mode span) rfl rfl h2⟩

/-- Witness for C7: a button with a press pending and auto-close armed is
reset; polls, a sample inside the debounce window and level-0 samples
follow. -/
theorem reset_is_total_witness :
    clear (loadState (configButton AnyButton.new InputType.TypeToggle OutputMode.ModeDirect
        OutSpan.SpanOneshot) 10 1) =
      ⟨InputType.TypeToggle, OutputMode.ModeDirect, OutSpan.SpanOneshot, 2, 200, 0, 0, false,
        false, 0, 0, 0, -1, 5⟩ ∧
    configButton (loadState (configButton AnyButton.new InputType.TypeToggle
        OutputMode.ModeDirect OutSpan.SpanOneshot) 10 1) InputType.TypePush
        OutputMode.ModeSelect OutSpan.SpanEver =
      ⟨InputType.TypePush, OutputMode.ModeSelect, OutSpan.SpanEver, 2, 200, 0, 0, false,
        false, 0, 0, 0, -1, 5⟩ ∧
    ((∀ v ∈ (run (clear (loadState (configButton AnyButton.new InputType.TypeToggle
        OutputMode.ModeDirect OutSpan.SpanOneshot) 10 1))
        [Op.poll 300, Op.load 3 1, Op.poll 400, Op.load 20 0, Op.poll 500]).2, v = -1) ∧
      (getStateValue (run (clear (loadState (configButton AnyButton.new InputType.TypeToggle
        OutputMode.ModeDirect OutSpan.SpanOneshot) 10 1))
        [Op.poll 300, Op.load 3 1, Op.poll 400, Op.load 20 0, Op.poll 500]).1).2 = 0) ∧
    ((∀ v ∈ (run (configButton (loadState (configButton AnyButton.new InputType.TypeToggle
        OutputMode.ModeDirect OutSpan.SpanOneshot) 10 1) InputType.TypePush
        OutputMode.ModeSelect OutSpan.SpanEver) [Op.poll 300, Op.load 20 0, Op.poll 500]).2,
        v = -1) ∧
      (getStateValue (run (configButton (loadState (configButton AnyButton.new
        InputType.TypeToggle OutputMode.ModeDirect OutSpan.SpanOneshot) 10 1)
        InputType.TypePush OutputMode.ModeSelect OutSpan.SpanEver)
        [Op.poll 300, Op.load 20 0, Op.poll 500]).1).2 = 0) :=
  reset_is_total (loadState (configButton AnyButton.new InputType.TypeToggle
      OutputMode.ModeDirect OutSpan.SpanOneshot) 10 1) InputType.TypePush
    OutputMode.ModeSelect OutSpan.SpanEver
    [Op.poll 300, Op.load 3 1, Op.poll 400, Op.load 20 0, Op.poll 500]
    [Op.poll 300, Op.load 20 0, Op.poll 500] (by decide) (by decide)

/-! ## Reported values -/

/-- The transition engine keeps the output non-negative, and positive once a
change is pending, when the pending level is 0 or 1; in Direct mode the output
then is the stable level plus one. -/
theorem changeState_value (s : AnyButton) (now : Nat)
    (hns : s.nowState = 0 ∨ s.nowState = 1) (hls : s.lastState = s.nowState)
    (h0 : 0 ≤ s.outputState) (h1 : s.changed = true → 1 ≤ s.outputState) :
    0 ≤ (changeState s now).outputState ∧
    ((changeState s now).changed = true → 1 ≤ (changeState s now).outputState) ∧
    (s._mode = OutputMode.ModeDirect → (changeState s now).changed = true →
      (changeState s now).outputState = (changeState s now).lastState + 1) := by
  obtain ⟨ty, mode, sp, selmax, spanms, ls, ns, ch, ac, os, cr, lc, lr, anti⟩ := s
  simp only at hns hls h0 h1
  subst hls
  cases mode <;> cases ty <;> cases sp <;>
    simp [changeState, changeStateDirect, changeStateSelect, changeStateAutoOff] <;>
    (try split_ifs) <;> (try simp_all) <;> (try omega)

/-- A sample never changes the configuration. -/
theorem loadState_config (s : AnyButton) (now : Nat) (b : Int) :
    (loadState s now b)._type = s._type ∧ (loadState s now b)._mode = s._mode ∧
    (loadState s now b)._span = s._span ∧ (loadState s now b)._selmax = s._selmax ∧
    (loadState s now b)._spanms = s._spanms ∧
    (loadState s now b).antiChatteringTime = s.antiChatteringTime := by
  by_cases hp : debouncePass s now
  · by_cases he : b = s.lastState
    · simp [loadState, hp, he]
    · obtain ⟨c1, c2, c3, c4, c5, _, _, _, c9, _⟩ := loadState_edge_frame s now b hp he
      exact ⟨c1, c2, c3, c4, c5, c9⟩
  · simp [loadState, hp]

/-- A sample of level 0 or 1 preserves the value invariant. -/
theorem loadState_valueInv (s : AnyButton) (now : Nat) (b : Int)
    (hb : b = 0 ∨ b = 1) (h : ValueInv s) : ValueInv (loadState s now b) := by
  obtain ⟨i1, i2, i3, i4⟩ := h
  obtain ⟨_, cm, _, _, _, _⟩ := loadState_config s now b
  by_cases he : debouncePass s now ∧ b ≠ s.lastState
  · obtain ⟨v1, v2, v3⟩ := changeState_value { s with nowState := b, lastState := b } now
      hb rfl i2 i3
    obtain ⟨_, _, _, _, _, f6, _, _, _⟩ :=
      changeState_frame { s with nowState := b, lastState := b } now
    rw [loadState_edge s now b he.1 he.2] at cm ⊢
    refine ⟨?_, v1, v2, ?_⟩
    · show (changeState { s with nowState := b, lastState := b } now).lastState = 0 ∨ _
      rw [f6]
      exact hb
    · intro hm hc
      exact v3 (cm.symm ▸ hm) hc
  · obtain ⟨f1, f2, _, f4⟩ := loadState_noEdge s now b he
    refine ⟨?_, ?_, ?_, ?_⟩
    · rw [f4]; exact i1
    · rw [f1]; exact i2
    · rw [f1, f2]; exact i3
    · rw [f1, f2, f4, cm]; exact i4

/-- What a poll leaves alone, and that it leaves no change pending. -/
theorem getStateChanged_frame (s : AnyButton) (now : Nat) :
    (getStateChanged s now).1._mode = s._mode ∧ (getStateChanged s now).1._span = s._span ∧
    (getStateChanged s now).1.lastState = s.lastState ∧
    (getStateChanged s now).1.changed = false := by
  obtain ⟨ty, mode, sp, selmax, spanms, ls, ns, ch, ac, os, cr, lc, lr, anti⟩ := s
  simp only [getStateChanged]
  split_ifs <;> simp_all

/-- A poll preserves the value invariant. -/
theorem getStateChanged_valueInv (s : AnyButton) (now : Nat) (h : ValueInv s) :
    ValueInv (getStateChanged s now).1 := by
  obtain ⟨i1, i2, _, _⟩ := h
  obtain ⟨_, _, f3, f4⟩ := getStateChanged_frame s now
  refine ⟨?_, ?_, ?_, ?_⟩
  · rw [f3]; exact i1
  · rw [getStateChanged_outputState]; exact i2
  · intro hc; rw [f4] at hc; cases hc
  · intro _ hc; rw [f4] at hc; cases hc

/-- Samples of level 0 or 1 and polls preserve the value invariant, the output
mode and the span. -/
theorem run_valueInv (ops : List Op) :
    ∀ s : AnyButton, (∀ op ∈ ops, Op.isSampleOrPoll op = true) → ValueInv s →
      ValueInv (run s ops).1 ∧ (run s ops).1._mode = s._mode ∧
      (run s ops).1._span = s._span := by
  induction ops with
  | nil => intro s _ h; exact ⟨h, rfl, rfl⟩
  | cons op ops ih =>
    intro s hops h
    have hops1 : ∀ o ∈ ops, Op.isSampleOrPoll o = true := fun o ho =>
      hops o (List.mem_cons_of_mem _ ho)
    have hop : Op.isSampleOrPoll op = true := hops op (List.mem_cons_self _ _)
    cases op with
    | load now b =>
      simp only [Op.isSampleOrPoll, decide_eq_true_eq] at hop
      obtain ⟨_, cm, cs, _, _, _⟩ := loadState_config s now b
      rw [run_load]
      obtain ⟨g1, g2, g3⟩ := ih _ hops1 (loadState_valueInv s now b hop h)
      exact ⟨g1, g2.trans cm, g3.trans cs⟩
    | poll now =>
      obtain ⟨f1, f2, _, _⟩ := getStateChanged_frame s now
      rw [run_poll]
      obtain ⟨g1, g2, g3⟩ := ih _ hops1 (getStateChanged_valueInv s now h)
      exact ⟨g1, g2.trans f1, g3.trans f2⟩
    | selectMax n => simp [Op.isSampleOrPoll] at hop
    | oneshotTime n => simp [Op.isSampleOrPoll] at hop
    | clear => simp [Op.isSampleOrPoll] at hop
    | config t m sp => simp [Op.isSampleOrPoll] at hop

/-- The value a poll returns in a state satisfying the value invariant. -/
theorem getStateChanged_value (s : AnyButton) (now : Nat) (h : ValueInv s) :
    (s._span = OutSpan.SpanEver →
      (getStateChanged s now).2 = -1 ∨ 1 ≤ (getStateChanged s now).2) ∧
    (s._mode = OutputMode.ModeDirect →
      (getStateChanged s now).2 = -1 ∨ (getStateChanged s now).2 = 0 ∨
      ((getStateChanged s now).2 = 1 ∧ s.lastState = 0) ∨
      ((getStateChanged s now).2 = 2 ∧ s.lastState = 1)) := by
  obtain ⟨i1, i2, i3, i4⟩ := h
  obtain ⟨ty, mode, sp, selmax, spanms, ls, ns, ch, ac, os, cr, lc, lr, anti⟩ := s
  simp only at i1 i2 i3 i4
  simp only [getStateChanged]
  refine ⟨?_, ?_⟩
  · intro hsp
    subst hsp
    split_ifs <;> simp_all
  · intro hm
    subst hm
    split_ifs <;> simp_all
    rcases i1 with h | h <;> simp [h]

/-- C8: on a freshly configured button, after any sequence of `loadState`
samples with levels in {0,1} and polls, a `getStateChanged()` call returns -1
or a position `≥ 1`, never 0, when the span is SpanEver; and in Direct mode
(either span) it returns -1, 0, 1 or 2, where 1 is returned only with the
stable level OFF (0) and 2 only with the stable level ON (1). -/
theorem zero_only_as_auto_revert (s0 : AnyButton) (type : InputType) (mode : OutputMode)
    (span : OutSpan) (ops : List Op) (now : Nat)
    (hops : ∀ op ∈ ops, Op.isSampleOrPoll op = true) :
    (span = OutSpan.SpanEver →
      (getStateChanged (run (configButton s0 type mode span) ops).1 now).2 = -1 ∨
      1 ≤ (getStateChanged (run (configButton s0 type mode span) ops).1 now).2) ∧
    (mode = OutputMode.ModeDirect →
      (getStateChanged (run (configButton s0 type mode span) ops).1 now).2 = -1 ∨
      (getStateChanged (run (configButton s0 type mode span) ops).1 now).2 = 0 ∨
      ((getStateChanged (run (configButton s0 type mode span) ops).1 now).2 = 1 ∧
        (run (configButton s0 type mode span) ops).1.lastState = 0) ∨
      ((getStateChanged (run (configButton s0 type mode span) ops).1 now).2 = 2 ∧
        (run (configButton s0 type mode span) ops).1.lastState = 1)) := by
  have hinit : ValueInv (configButton s0 type mode span) := by
    simp [ValueInv, configButton_mk]
  obtain ⟨g1, g2, g3⟩ := run_valueInv ops _ hops hinit
  obtain ⟨v1, v2⟩ := getStateChanged_value _ now g1
  exact ⟨fun h => v1 (g3.trans h), fun h => v2 (g2.trans h)⟩

/-- Witness for C8: press, poll, release on a Direct+Oneshot button; the next
poll returns 1 with the stable level OFF. -/
theorem zero_only_as_auto_revert_witness :
    (OutSpan.SpanOneshot = OutSpan.SpanEver →
      (getStateChanged (run (configButton AnyButton.new InputType.TypePush
        OutputMode.ModeDirect OutSpan.SpanOneshot)
        [Op.load 10 1, Op.poll 11, Op.load 20 0]).1 21).2 = -1 ∨
      1 ≤ (getStateChanged (run (configButton AnyButton.new InputType.TypePush
        OutputMode.ModeDirect OutSpan.SpanOneshot)
        [Op.load 10 1, Op.poll 11, Op.load 20 0]).1 21).2) ∧
    (OutputMode.ModeDirect = OutputMode.ModeDirect →
      (getStateChanged (run (configButton AnyButton.new InputType.TypePush
        OutputMode.ModeDirect OutSpan.SpanOneshot)
        [Op.load 10 1, Op.poll 11, Op.load 20 0]).1 21).2 = -1 ∨
      (getStateChanged (run (configButton AnyButton.new InputType.TypePush
        OutputMode.ModeDirect OutSpan.SpanOneshot)
        [Op.load 10 1, Op.poll 11, Op.load 20 0]).1 21).2 = 0 ∨
      ((getStateChanged (run (configButton AnyButton.new InputType.TypePush
        OutputMode.ModeDirect OutSpan.SpanOneshot)
        [Op.load 10 1, Op.poll 11, Op.load 20 0]).1 21).2 = 1 ∧
        (run (configButton AnyButton.new InputType.TypePush
        OutputMode.ModeDirect OutSpan.SpanOneshot)
        [Op.load 10 1, Op.poll 11, Op.load 20 0]).1.lastState = 0) ∨
      ((getStateChanged (run (configButton AnyButton.new InputType.TypePush
        OutputMode.ModeDirect OutSpan.SpanOneshot)
        [Op.load 10 1, Op.poll 11, Op.load 20 0]).1 21).2 = 2 ∧
        (run (configButton AnyButton.new InputType.TypePush
        OutputMode.ModeDirect OutSpan.SpanOneshot)
        [Op.load 10 1, Op.poll 11, Op.load 20 0]).1.lastState = 1)) :=
  zero_only_as_auto_revert AnyButton.new InputType.TypePush OutputMode.ModeDirect
    OutSpan.SpanOneshot [Op.load 10 1, Op.poll 11, Op.load 20 0] 21 (by decide)

/-! ## Inputs outside the documented domain -/

/-- C9 (as amended): invalid inputs are accepted, not rejected.  `setSelectMax(n)`
with `n < 2` stores `n` as the ceiling and changes nothing else; `loadState`
with a level `b` outside {0,1} (an `int` below `INT_MAX`) is processed like
any other level: when it passes the debounce filter and differs from the
stable level it becomes the stable and the pending level, and in Direct mode
the output becomes `b + 1` with a change pending.  Neither call has a failure
result. -/
theorem invalid_inputs_accepted (s : AnyButton) (n now : Nat) (b : Int)
    (hn : n < 2) (_hb : b ≠ 0 ∧ b ≠ 1) (_hint : -2 ^ 31 ≤ b ∧ b < 2 ^ 31 - 1)
    (hpass : debouncePass s now) (hedge : b ≠ s.lastState) :
    setSelectMax s n = { s with _selmax := n } ∧
    (loadState s now b).lastState = b ∧ (loadState s now b).nowState = b ∧
    (s._mode = OutputMode.ModeDirect →
      (getStateValue (loadState s now b)).2 = b + 1 ∧ (loadState s now b).changed = true) := by
  obtain ⟨_, _, _, _, _, f6, f7, _, _, _⟩ := loadState_edge_frame s now b hpass hedge
  refine ⟨?_, f6, f7, fun hm => loadState_direct_edge s now b hm hpass hedge⟩
  have e : u16 n = n := Nat.mod_eq_of_lt (by omega)
  rw [setSelectMax, e]

/-- Witness for C9: `setSelectMax(1)` and `loadState(-1)` at 10 ms on the
default-constructed button. -/
theorem invalid_inputs_accepted_witness :
    setSelectMax AnyButton.new 1 = { AnyButton.new with _selmax := 1 } ∧
    (loadState AnyButton.new 10 (-1)).lastState = -1 ∧
    (loadState AnyButton.new 10 (-1)).nowState = -1 ∧
    (AnyButton.new._mode = OutputMode.ModeDirect →
      (getStateValue (loadState AnyButton.new 10 (-1))).2 = -1 + 1 ∧
      (loadState AnyButton.new 10 (-1)).changed = true) :=
  invalid_inputs_accepted AnyButton.new 1 10 (-1) (by decide) (by decide) (by decide)
    (by decide) (by decide)

/-- C9 fails as stated: on the default-constructed button `setSelectMax(1)`
changes the ceiling from 2 to 1, and `loadState(-1)` at 10 ms changes the
runtime state (stable level -1, output 0, change pending), after which
`getStateChanged()` reports 0. -/
theorem invalid_inputs_change_state :
    (setSelectMax AnyButton.new 1)._selmax = 1 ∧
    setSelectMax AnyButton.new 1 ≠ AnyButton.new ∧
    loadState AnyButton.new 10 (-1) ≠ AnyButton.new ∧
    (loadState AnyButton.new 10 (-1)).lastState = -1 ∧
    (loadState AnyButton.new 10 (-1)).outputState = 0 ∧
    (loadState AnyButton.new 10 (-1)).changed = true ∧
    (getStateChanged (loadState AnyButton.new 10 (-1)) 11).2 = 0 := by
  decide

/-! ## Toggle + Select -/

/-- C10: in Toggle+Select mode every accepted edge (level `b` in {0,1}
passing the debounce filter and differing from the stable level) sets the
change-pending flag; with select ceiling exactly 2 the output becomes `b + 1`
whatever it was before; with select ceiling `N > 2` the output advances by one
and wraps to 1 when it would exceed `N` (for an output below `INT_MAX`, where
the increment is defined). -/
theorem toggleSelect_edge (s : AnyButton) (now : Nat) (b : Int)
    (hty : s._type = InputType.TypeToggle) (hmode : s._mode = OutputMode.ModeSelect)
    (hb : b = 0 ∨ b = 1) (hpass : debouncePass s now) (hedge : b ≠ s.lastState)
    (_hrange : s.outputState < 2 ^ 31 - 1) :
    (loadState s now b).changed = true ∧
    (s._selmax = 2 → (getStateValue (loadState s now b)).2 = b + 1) ∧
    (2 < s._selmax → (getStateValue (loadState s now b)).2 =
      if s.outputState + 1 > (s._selmax : Int) then 1 else s.outputState + 1) := by
  rw [loadState_edge s now b hpass hedge]
  obtain ⟨ty, mode, sp, selmax, spanms, ls, ns, ch, ac, os, cr, lc, lr, anti⟩ := s
  simp only at hty hmode
  subst hty hmode
  simp only [getStateValue]
  refine ⟨?_, ?_, ?_⟩
  · simp [changeState, changeStateDirect, changeStateSelect, changeStateAutoOff]
    split_ifs <;> simp
  · intro h2
    subst h2
    simp [changeState, changeStateDirect, changeStateSelect, changeStateAutoOff]
    split_ifs <;> simp_all <;> omega
  · intro h2
    have hne : selmax ≠ 2 := by omega
    simp [changeState, changeStateDirect, changeStateSelect, changeStateAutoOff, hne]
    split_ifs <;> simp_all

/-- Witness for C10: a three-position Toggle+Select button, first edge. -/
theorem toggleSelect_edge_witness :
    (loadState (configButton (setSelectMax AnyButton.new 3) InputType.TypeToggle
      OutputMode.ModeSelect OutSpan.SpanEver) 10 1).changed = true ∧
    ((configButton (setSelectMax AnyButton.new 3) InputType.TypeToggle
      OutputMode.ModeSelect OutSpan.SpanEver)._selmax = 2 →
      (getStateValue (loadState (configButton (setSelectMax AnyButton.new 3)
        InputType.TypeToggle OutputMode.ModeSelect OutSpan.SpanEver) 10 1)).2 = 1 + 1) ∧
    (2 < (configButton (setSelectMax AnyButton.new 3) InputType.TypeToggle
      OutputMode.ModeSelect OutSpan.SpanEver)._selmax →
      (getStateValue (loadState (configButton (setSelectMax AnyButton.new 3)
        InputType.TypeToggle OutputMode.ModeSelect OutSpan.SpanEver) 10 1)).2 =
      if (configButton (setSelectMax AnyButton.new 3) InputType.TypeToggle
          OutputMode.ModeSelect OutSpan.SpanEver).outputState + 1 >
          (((configButton (setSelectMax AnyButton.new 3) InputType.TypeToggle
          OutputMode.ModeSelect OutSpan.SpanEver)._selmax : Nat) : Int) then 1
      else (configButton (setSelectMax AnyButton.new 3) InputType.TypeToggle
          OutputMode.ModeSelect OutSpan.SpanEver).outputState + 1) :=
  toggleSelect_edge (configButton (setSelectMax AnyButton.new 3) InputType.TypeToggle
    OutputMode.ModeSelect OutSpan.SpanEver) 10 1 rfl rfl (by decide) (by decide) (by decide)
    (by decide)

/-! ## The poll, branch by branch -/

/-- C11: in every state in which a change is pending, `getStateChanged()`
clears the pending flag, returns the output value if it differs from the last
reported value (recording it as last reported) and returns -1 otherwise, and
leaves the auto-close flag and deadline untouched whatever the time (also
after the deadline); and in every state with no change pending and auto-close
not armed it returns -1 and changes no field. -/
theorem pending_change_first (s : AnyButton) (now : Nat) (hch : s.changed = true)
    (s' : AnyButton) (now' : Nat) (hch' : s'.changed = false)
    (hac' : s'.autoClose = false) :
    (getStateChanged s now).1.changed = false ∧
    (s.outputState ≠ s.lastResShot →
      getStateChanged s now =
        ({ s with lastResShot := s.outputState, changed := false }, s.outputState)) ∧
    (s.outputState = s.lastResShot →
      getStateChanged s now = ({ s with changed := false }, -1)) ∧
    (getStateChanged s now).1.autoClose = s.autoClose ∧
    (getStateChanged s now).1.closeRemain = s.closeRemain ∧
    getStateChanged s' now' = (s', -1) := by
  obtain ⟨ty, mode, sp, selmax, spanms, ls, ns, ch, ac, os, cr, lc, lr, anti⟩ := s
  simp only at hch
  subst hch
  refine ⟨?_, ?_, ?_, ?_, ?_, getStateChanged_idle s' now' hch' hac'⟩
  · simp only [getStateChanged]
    split_ifs <;> rfl
  · intro h
    have h1 : lr ≠ os := fun e => h e.symm
    simp [getStateChanged, h1]
  · intro h
    simp only at h
    subst h
    simp [getStateChanged]
  · simp only [getStateChanged]
    split_ifs <;> rfl
  · simp only [getStateChanged]
    split_ifs <;> rfl

/-- Witness for C11: a pressed Direct+Oneshot button polled at 500 ms, long
after the deadline 210, and the default-constructed button polled at 7 ms. -/
theorem pending_change_first_witness :
    (getStateChanged (loadState (configButton AnyButton.new InputType.TypePush
      OutputMode.ModeDirect OutSpan.SpanOneshot) 10 1) 500).1.changed = false ∧
    ((loadState (configButton AnyButton.new InputType.TypePush
        OutputMode.ModeDirect OutSpan.SpanOneshot) 10 1).outputState ≠
      (loadState (configButton AnyButton.new InputType.TypePush
        OutputMode.ModeDirect OutSpan.SpanOneshot) 10 1).lastResShot →
      getStateChanged (loadState (configButton AnyButton.new InputType.TypePush
        OutputMode.ModeDirect OutSpan.SpanOneshot) 10 1) 500 =
        ({ loadState (configButton AnyButton.new InputType.TypePush
            OutputMode.ModeDirect OutSpan.SpanOneshot) 10 1 with
          lastResShot := (loadState (configButton AnyButton.new InputType.TypePush
            OutputMode.ModeDirect OutSpan.SpanOneshot) 10 1).outputState,
          changed := false },
         (loadState (configButton AnyButton.new InputType.TypePush
            OutputMode.ModeDirect OutSpan.SpanOneshot) 10 1).outputState)) ∧
    ((loadState (configButton AnyButton.new InputType.TypePush
        OutputMode.ModeDirect OutSpan.SpanOneshot) 10 1).outputState =
      (loadState (configButton AnyButton.new InputType.TypePush
        OutputMode.ModeDirect OutSpan.SpanOneshot) 10 1).lastResShot →
      getStateChanged (loadState (configButton AnyButton.new InputType.TypePush
        OutputMode.ModeDirect OutSpan.SpanOneshot) 10 1) 500 =
        ({ loadState (configButton AnyButton.new InputType.TypePush
            OutputMode.ModeDirect OutSpan.SpanOneshot) 10 1 with changed := false }, -1)) ∧
    (getStateChanged (loadState (configButton AnyButton.new InputType.TypePush
      OutputMode.ModeDirect OutSpan.SpanOneshot) 10 1) 500).1.autoClose =
      (loadState (configButton AnyButton.new InputType.TypePush
        OutputMode.ModeDirect OutSpan.SpanOneshot) 10 1).autoClose ∧
    (getStateChanged (loadState (configButton AnyButton.new InputType.TypePush
      OutputMode.ModeDirect OutSpan.SpanOneshot) 10 1) 500).1.closeRemain =
      (loadState (configButton AnyButton.new InputType.TypePush
        OutputMode.ModeDirect OutSpan.SpanOneshot) 10 1).closeRemain ∧
    getStateChanged AnyButton.new 7 = (AnyButton.new, -1) :=
  pending_change_first (loadState (configButton AnyButton.new InputType.TypePush
    OutputMode.ModeDirect OutSpan.SpanOneshot) 10 1) 500 (by decide) AnyButton.new 7
    (by decide) (by decide)

/-- C12 (as amended): with no change pending, `getStateChanged()` at time
`now` (a reading below 2^32) fires the auto-close exactly when auto-close is
armed, the span is Oneshot and `now` is strictly later than the auto-close
deadline: it then disarms auto-close and, if the last reported value is not
0, records 0 as last reported and returns 0; in every other case, a poll at
the instant `now` equal to the deadline included, it returns -1 and changes
nothing. -/
theorem autoClose_fires_after_deadline (s : AnyButton) (now : Nat)
    (hch : s.changed = false) (hnow : now < 2 ^ 32) :
    (s.autoClose = true ∧ s._span = OutSpan.SpanOneshot ∧ s.closeRemain < now →
      (getStateChanged s now).1.autoClose = false ∧
      (s.lastResShot ≠ 0 →
        getStateChanged s now = ({ s with lastResShot := 0, autoClose := false }, 0))) ∧
    (¬ (s.autoClose = true ∧ s._span = OutSpan.SpanOneshot ∧ s.closeRemain < now) →
      getStateChanged s now = (s, -1)) ∧
    (now = s.closeRemain → getStateChanged s now = (s, -1)) := by
  have e : u32 now = now := Nat.mod_eq_of_lt hnow
  obtain ⟨ty, mode, sp, selmax, spanms, ls, ns, ch, ac, os, cr, lc, lr, anti⟩ := s
  simp only at hch
  subst hch
  have hno : ¬ (ac = true ∧ sp = OutSpan.SpanOneshot ∧ cr < now) →
      getStateChanged ⟨ty, mode, sp, selmax, spanms, ls, ns, false, ac, os, cr, lc, lr, anti⟩
        now =
      (⟨ty, mode, sp, selmax, spanms, ls, ns, false, ac, os, cr, lc, lr, anti⟩, -1) := by
    intro h
    simp only [getStateChanged, e]
    rw [if_neg (by simp), if_neg h]
  refine ⟨?_, hno, ?_⟩
  · intro h
    refine ⟨?_, ?_⟩
    · simp only [getStateChanged, e]
      rw [if_neg (by simp), if_pos h]
    · intro hlr
      simp only at hlr
      simp only [getStateChanged, e]
      rw [if_neg (by simp), if_pos h]
      simp [hlr]
  · intro h
    simp only at h
    exact hno (fun hc => by omega)

/-- Witness for C12: a Direct+Oneshot button (oneshot time 100) pressed at
10 ms and polled once; the poll at 111 ms fires the auto-close. -/
theorem autoClose_fires_after_deadline_witness :
    ((getStateChanged (loadState (setOneshotTime (configButton AnyButton.new
        InputType.TypeToggle OutputMode.ModeDirect OutSpan.SpanOneshot) 100) 10 1) 11).1.autoClose
        = true ∧
      (getStateChanged (loadState (setOneshotTime (configButton AnyButton.new
        InputType.TypeToggle OutputMode.ModeDirect OutSpan.SpanOneshot) 100) 10 1) 11).1._span
        = OutSpan.SpanOneshot ∧
      (getStateChanged (loadState (setOneshotTime (configButton AnyButton.new
        InputType.TypeToggle OutputMode.ModeDirect OutSpan.SpanOneshot) 100) 10 1)
        11).1.closeRemain < 111 →
      (getStateChanged (getStateChanged (loadState (setOneshotTime (configButton AnyButton.new
        InputType.TypeToggle OutputMode.ModeDirect OutSpan.SpanOneshot) 100) 10 1) 11).1
        111).1.autoClose = false ∧
      ((getStateChanged (loadState (setOneshotTime (configButton AnyButton.new
        InputType.TypeToggle OutputMode.ModeDirect OutSpan.SpanOneshot) 100) 10 1)
        11).1.lastResShot ≠ 0 →
        getStateChanged (getStateChanged (loadState (setOneshotTime (configButton AnyButton.new
          InputType.TypeToggle OutputMode.ModeDirect OutSpan.SpanOneshot) 100) 10 1) 11).1 111 =
        ({ (getStateChanged (loadState (setOneshotTime (configButton AnyButton.new
            InputType.TypeToggle OutputMode.ModeDirect OutSpan.SpanOneshot) 100) 10 1) 11).1 with
            lastResShot := 0, autoClose := false }, 0))) ∧
    (¬ ((getStateChanged (loadState (setOneshotTime (configButton AnyButton.new
        InputType.TypeToggle OutputMode.ModeDirect OutSpan.SpanOneshot) 100) 10 1) 11).1.autoClose
        = true ∧
      (getStateChanged (loadState (setOneshotTime (configButton AnyButton.new
        InputType.TypeToggle OutputMode.ModeDirect OutSpan.SpanOneshot) 100) 10 1) 11).1._span
        = OutSpan.SpanOneshot ∧
      (getStateChanged (loadState (setOneshotTime (configButton AnyButton.new
        InputType.TypeToggle OutputMode.ModeDirect OutSpan.SpanOneshot) 100) 10 1)
        11).1.closeRemain < 111) →
      getStateChanged (getStateChanged (loadState (setOneshotTime (configButton AnyButton.new
        InputType.TypeToggle OutputMode.ModeDirect OutSpan.SpanOneshot) 100) 10 1) 11).1 111 =
      ((getStateChanged (loadState (setOneshotTime (configButton AnyButton.new
        InputType.TypeToggle OutputMode.ModeDirect OutSpan.SpanOneshot) 100) 10 1) 11).1, -1)) ∧
    (111 = (getStateChanged (loadState (setOneshotTime (configButton AnyButton.new
        InputType.TypeToggle OutputMode.ModeDirect OutSpan.SpanOneshot) 100) 10 1)
        11).1.closeRemain →
      getStateChanged (getStateChanged (loadState (setOneshotTime (configButton AnyButton.new
        InputType.TypeToggle OutputMode.ModeDirect OutSpan.SpanOneshot) 100) 10 1) 11).1 111 =
      ((getStateChanged (loadState (setOneshotTime (configButton AnyButton.new
        InputType.TypeToggle OutputMode.ModeDirect OutSpan.SpanOneshot) 100) 10 1) 11).1, -1)) :=
  autoClose_fires_after_deadline (getStateChanged (loadState (setOneshotTime (configButton
    AnyButton.new InputType.TypeToggle OutputMode.ModeDirect OutSpan.SpanOneshot) 100) 10 1)
    11).1 111 (by decide) (by decide)

/-- C12 fails as stated at the instant of the deadline: a Direct+Oneshot
button with oneshot time 100 is pressed at 10 ms (deadline 110) and polled
(2); with no change pending, auto-close armed and span Oneshot, the poll at
`now = 110` returns -1 and leaves auto-close armed; the poll at 111 returns
0. -/
theorem autoClose_not_at_deadline :
    (getStateChanged (loadState (setOneshotTime (configButton AnyButton.new
      InputType.TypeToggle OutputMode.ModeDirect OutSpan.SpanOneshot) 100) 10 1) 11).1.closeRemain
      = 110 ∧
    (getStateChanged (loadState (setOneshotTime (configButton AnyButton.new
      InputType.TypeToggle OutputMode.ModeDirect OutSpan.SpanOneshot) 100) 10 1) 11).1.autoClose
      = true ∧
    (getStateChanged (loadState (setOneshotTime (configButton AnyButton.new
      InputType.TypeToggle OutputMode.ModeDirect OutSpan.SpanOneshot) 100) 10 1) 11).1.changed
      = false ∧
    (getStateChanged (getStateChanged (loadState (setOneshotTime (configButton AnyButton.new
      InputType.TypeToggle OutputMode.ModeDirect OutSpan.SpanOneshot) 100) 10 1) 11).1 110).2
      = -1 ∧
    (getStateChanged (getStateChanged (loadState (setOneshotTime (configButton AnyButton.new
      InputType.TypeToggle OutputMode.ModeDirect OutSpan.SpanOneshot) 100) 10 1) 11).1
      110).1.autoClose = true ∧
    (run (setOneshotTime (configButton AnyButton.new InputType.TypeToggle
      OutputMode.ModeDirect OutSpan.SpanOneshot) 100)
      [Op.load 10 1, Op.poll 11, Op.poll 110, Op.poll 111]).2 = [2, -1, 0] := by
  decide

/-! ## The debounce guard at its boundary -/

/-- On a monotonic clock below 2^16 the guard of `loadState` holds exactly
when the time since the last sample exceeds the window. -/
theorem debouncePass_iff (s : AnyButton) (now : Nat) (hlc : s.lastCheck ≤ now)
    (h16 : now < 2 ^ 16) :
    debouncePass s now ↔ s.antiChatteringTime < now - s.lastCheck := by
  simp only [debouncePass, u32]
  omega

/-- A burst of samples, each closer than the window to its predecessor, is
dropped in full: only `lastCheck` moves, to the time of the last sample. -/
theorem run_burst_dropped (burst : List (Nat × Int)) :
    ∀ s : AnyButton,
      burstWithin s.antiChatteringTime s.lastCheck burst = true →
      run s (burst.map (fun p => Op.load p.1 p.2)) =
        ({ s with lastCheck := (burst.map Prod.fst).getLastD s.lastCheck }, []) := by
  induction burst with
  | nil => intro s _; rfl
  | cons p burst ih =>
    intro s hc
    simp only [burstWithin, Bool.and_eq_true, decide_eq_true_eq] at hc
    obtain ⟨⟨h1, h2, h3⟩, hrest⟩ := hc
    have hdrop : ¬ debouncePass s p.1 := by
      rw [debouncePass_iff s p.1 h1 h3]
      omega
    have e : u16 (u32 p.1) = p.1 := by
      simp only [u16, u32]
      omega
    have hl : loadState s p.1 p.2 = { s with lastCheck := p.1 } := by
      rw [loadState_dropped s p.1 p.2 hdrop, e]
    rw [List.map_cons, run_load, hl, ih { s with lastCheck := p.1 } hrest]
    cases burst <;> rfl

/-- C13: for every state and every `loadState` call at a time `now` (readings
below 2^16, clock monotonic) with `now - lastCheck` less than the debounce
window, no field other than `lastCheck` changes - not the pending level,
stable level, output value, change-pending flag or auto-close state - and
`lastCheck` becomes `now`; consequently a burst of samples each closer than
the window to its predecessor is ignored in full, however long it is. -/
theorem early_sample_dropped (s : AnyButton) (now : Nat) (b : Int)
    (burst : List (Nat × Int))
    (hlc : s.lastCheck ≤ now) (hlt : now - s.lastCheck < s.antiChatteringTime)
    (h16 : now < 2 ^ 16)
    (hburst : burstWithin s.antiChatteringTime s.lastCheck burst = true) :
    loadState s now b = { s with lastCheck := now } ∧
    run s (burst.map (fun p => Op.load p.1 p.2)) =
      ({ s with lastCheck := (burst.map Prod.fst).getLastD s.lastCheck }, []) := by
  refine ⟨?_, run_burst_dropped burst s hburst⟩
  have hdrop : ¬ debouncePass s now := by
    rw [debouncePass_iff s now hlc h16]
    omega
  have e : u16 (u32 now) = now := by
    simp only [u16, u32]
    omega
  rw [loadState_dropped s now b hdrop, e]

/-- Witness for C13: a pressed default button (last sample at 10 ms) sampled
at 13 ms, and a burst at 12, 15, 19, 23 ms with alternating levels. -/
theorem early_sample_dropped_witness :
    loadState (loadState AnyButton.new 10 1) 13 0 =
      { loadState AnyButton.new 10 1 with lastCheck := 13 } ∧
    run (loadState AnyButton.new 10 1)
      ([(12, 0), ((15 : Nat), (1 : Int)), (19, 0), (23, 1)].map (fun p => Op.load p.1 p.2)) =
      ({ loadState AnyButton.new 10 1 with
        lastCheck := ([(12, 0), ((15 : Nat), (1 : Int)), (19, 0), (23, 1)].map
          Prod.fst).getLastD (loadState AnyButton.new 10 1).lastCheck }, []) :=
  early_sample_dropped (loadState AnyButton.new 10 1) 13 0
    [(12, 0), (15, 1), (19, 0), (23, 1)] (by decide) (by decide) (by decide) (by decide)

/-- C14 (as amended): on a monotonic clock below 2^16 a sample is accepted
whenever `now - lastCheck` is strictly greater than the debounce window:
`lastCheck` becomes `now`, the pending level becomes the sampled level and, if
the level differs from the stable level, the stable level is updated and the
transition engine runs, while if it equals the stable level nothing else
changes; a sample exactly one window after the previous `loadState` call
(equality) is dropped, only `lastCheck` changing. -/
theorem sample_accepted_after_window (s : AnyButton) (now : Nat) (b : Int)
    (hlc : s.lastCheck ≤ now) (h16 : now < 2 ^ 16) :
    (s.antiChatteringTime < now - s.lastCheck → b ≠ s.lastState →
      loadState s now b =
        { changeState { s with nowState := b, lastState := b } now with lastCheck := now }) ∧
    (s.antiChatteringTime < now - s.lastCheck → b = s.lastState →
      loadState s now b = { s with nowState := b, lastCheck := now }) ∧
    (now - s.lastCheck = s.antiChatteringTime →
      loadState s now b = { s with lastCheck := now }) := by
  have e : u16 (u32 now) = now := by
    simp only [u16, u32]
    omega
  have hiff := debouncePass_iff s now hlc h16
  refine ⟨?_, ?_, ?_⟩
  · intro h he
    rw [loadState_edge s now b (hiff.mpr h) he, e]
  · intro h he
    have hp : debouncePass s now := hiff.mpr h
    simp [loadState, hp, he, e]
  · intro h
    have hp : ¬ debouncePass s now := by
      rw [hiff]
      omega
    rw [loadState_dropped s now b hp, e]

/-- Witness for C14: the default-constructed button (window 5, last sample
time 0) sampled at 6 ms. -/
theorem sample_accepted_after_window_witness :
    (AnyButton.new.antiChatteringTime < 6 - AnyButton.new.lastCheck →
      (1 : Int) ≠ AnyButton.new.lastState →
      loadState AnyButton.new 6 1 =
        { changeState { AnyButton.new with nowState := 1, lastState := 1 } 6 with
          lastCheck := 6 }) ∧
    (AnyButton.new.antiChatteringTime < 6 - AnyButton.new.lastCheck →
      (1 : Int) = AnyButton.new.lastState →
      loadState AnyButton.new 6 1 = { AnyButton.new with nowState := 1, lastCheck := 6 }) ∧
    (6 - AnyButton.new.lastCheck = AnyButton.new.antiChatteringTime →
      loadState AnyButton.new 6 1 = { AnyButton.new with lastCheck := 6 }) :=
  sample_accepted_after_window AnyButton.new 6 1 (by decide) (by decide)

/-- C14 fails as stated at equality: on the default-constructed button
(window 5) a level-1 sample at 10 ms is accepted, and the level-0 sample at
15 ms, exactly 5 ms after it, is dropped - the stable level stays 1, the output
stays 2 and only `lastCheck` moves to 15; likewise the first sample of a fresh
button at exactly 5 ms is dropped. -/
theorem sample_at_window_dropped :
    (loadState AnyButton.new 10 1).lastCheck = 10 ∧
    (loadState AnyButton.new 10 1).antiChatteringTime = 5 ∧
    ¬ debouncePass (loadState AnyButton.new 10 1) 15 ∧
    loadState (loadState AnyButton.new 10 1) 15 0 =
      { loadState AnyButton.new 10 1 with lastCheck := 15 } ∧
    (loadState (loadState AnyButton.new 10 1) 15 0).lastState = 1 ∧
    (loadState (loadState AnyButton.new 10 1) 15 0).outputState = 2 ∧
    loadState AnyButton.new 5 1 = { AnyButton.new with lastCheck := 5 } := by
  decide

/-! ## Push + Select: the falling edge -/

/-- C15, the code at the failing input.  A Push+Select+Oneshot button
(ceiling 2, oneshot time 200) is pressed at 10 ms and, with the press not yet
polled, released at 100 ms: the accepted falling edge moves the auto-close
deadline from 210 to 300, so the poll at 250 ms reports nothing and the
auto-revert 0 comes only after 300 ms; with the press polled before the
release the deadline stays 210.  In a second scenario (ceiling lowered from 4
to 2 while the output is 3) the falling edge sets the output from 3 to 1. -/
theorem pushSelect_release_moves_deadline :
    ((loadState (configButton AnyButton.new InputType.TypePush OutputMode.ModeSelect
        OutSpan.SpanOneshot) 10 1).closeRemain = 210 ∧
      (loadState (configButton AnyButton.new InputType.TypePush OutputMode.ModeSelect
        OutSpan.SpanOneshot) 10 1).changed = true ∧
      debouncePass (loadState (configButton AnyButton.new InputType.TypePush
        OutputMode.ModeSelect OutSpan.SpanOneshot) 10 1) 100 ∧
      (loadState (loadState (configButton AnyButton.new InputType.TypePush
        OutputMode.ModeSelect OutSpan.SpanOneshot) 10 1) 100 0).lastState = 0 ∧
      (loadState (loadState (configButton AnyButton.new InputType.TypePush
        OutputMode.ModeSelect OutSpan.SpanOneshot) 10 1) 100 0).closeRemain = 300 ∧
      (run (configButton AnyButton.new InputType.TypePush OutputMode.ModeSelect
        OutSpan.SpanOneshot)
        [Op.load 10 1, Op.load 100 0, Op.poll 101, Op.poll 250, Op.poll 301]).2 = [1, -1, 0] ∧
      (run (configButton AnyButton.new InputType.TypePush OutputMode.ModeSelect
        OutSpan.SpanOneshot)
        [Op.load 10 1, Op.poll 11, Op.load 100 0, Op.poll 101, Op.poll 250]).2 =
        [1, -1, 0]) ∧
    ((run (configButton (setSelectMax AnyButton.new 4) InputType.TypePush
        OutputMode.ModeSelect OutSpan.SpanEver)
        [Op.load 10 1, Op.load 20 0, Op.load 30 1, Op.load 40 0, Op.load 50 1, Op.poll 51,
          Op.selectMax 2]).1.outputState = 3 ∧
      (run (configButton (setSelectMax AnyButton.new 4) InputType.TypePush
        OutputMode.ModeSelect OutSpan.SpanEver)
        [Op.load 10 1, Op.load 20 0, Op.load 30 1, Op.load 40 0, Op.load 50 1, Op.poll 51,
          Op.selectMax 2, Op.load 60 0]).1.outputState = 1 ∧
      (run (configButton (setSelectMax AnyButton.new 4) InputType.TypePush
        OutputMode.ModeSelect OutSpan.SpanEver)
        [Op.load 10 1, Op.load 20 0, Op.load 30 1, Op.load 40 0, Op.load 50 1, Op.poll 51,
          Op.selectMax 2, Op.load 60 0]).1.changed = false) := by
  decide

/-! ## Width of the stored times -/

/-- C16, the code at the failing inputs.  On a Direct+Oneshot button with
the default oneshot time 200 a press at 65500 ms stores the deadline 164, not
65700, and after the poll that reports 2 the poll at 65502 ms already reports
the auto-revert 0; on the default-constructed button `loadState` at 65540 ms
records the last sample time 4, not 65540, and the level-0 sample 2 ms later
passes the debounce guard and is accepted (stable level 0, output 1). -/
theorem stored_times_truncated :
    ((loadState (configButton AnyButton.new InputType.TypeToggle OutputMode.ModeDirect
        OutSpan.SpanOneshot) 65500 1).closeRemain = 164 ∧
      (run (configButton AnyButton.new InputType.TypeToggle OutputMode.ModeDirect
        OutSpan.SpanOneshot) [Op.load 65500 1, Op.poll 65501, Op.poll 65502]).2 = [2, 0]) ∧
    ((loadState AnyButton.new 65540 1).lastCheck = 4 ∧
      debouncePass (loadState AnyButton.new 65540 1) 65542 ∧
      (loadState (loadState AnyButton.new 65540 1) 65542 0).lastState = 0 ∧
      (loadState (loadState AnyButton.new 65540 1) 65542 0).outputState = 1) := by
  decide

/-! ## Auto-close is armed only in Oneshot span -/

/-- The first component of `run` at a non-empty sequence. -/
theorem run_cons_fst (s : AnyButton) (op : Op) (ops : List Op) :
    (run s (op :: ops)).1 = (run (step s op).1 ops).1 := by
  simp only [run]
  split <;> rfl

/-- The transition engine arms auto-close only in Oneshot span, and never
changes the span. -/
theorem changeState_autoClose (s : AnyButton) (now : Nat)
    (h : (changeState s now).autoClose = true) :
    s.autoClose = true ∨ s._span = OutSpan.SpanOneshot := by
  obtain ⟨ty, mode, sp, selmax, spanms, ls, ns, ch, ac, os, cr, lc, lr, anti⟩ := s
  cases sp
  · left
    revert h
    cases mode <;> cases ty <;>
      simp [changeState, changeStateDirect, changeStateSelect, changeStateAutoOff] <;>
      (try split_ifs) <;> simp_all
  · right
    rfl

/-- A sample arms auto-close only in Oneshot span. -/
theorem loadState_autoClose (s : AnyButton) (now : Nat) (b : Int)
    (h : (loadState s now b).autoClose = true) :
    s.autoClose = true ∨ s._span = OutSpan.SpanOneshot := by
  by_cases he : debouncePass s now ∧ b ≠ s.lastState
  · rw [loadState_edge s now b he.1 he.2] at h
    exact changeState_autoClose { s with nowState := b, lastState := b } now h
  · obtain ⟨_, _, f3, _⟩ := loadState_noEdge s now b he
    exact Or.inl (f3 ▸ h)

/-- A poll never arms auto-close. -/
theorem getStateChanged_autoClose (s : AnyButton) (now : Nat)
    (h : (getStateChanged s now).1.autoClose = true) : s.autoClose = true := by
  obtain ⟨ty, mode, sp, selmax, spanms, ls, ns, ch, ac, os, cr, lc, lr, anti⟩ := s
  revert h
  simp only [getStateChanged]
  split_ifs <;> simp

/-- Every public operation preserves "armed implies Oneshot". -/
theorem step_armed_oneshot (s : AnyButton) (op : Op)
    (h : s.autoClose = true → s._span = OutSpan.SpanOneshot) :
    (step s op).1.autoClose = true → (step s op).1._span = OutSpan.SpanOneshot := by
  cases op with
  | load now b =>
    intro h1
    obtain ⟨_, _, c3, _, _, _⟩ := loadState_config s now b
    show (loadState s now b)._span = _
    rw [c3]
    rcases loadState_autoClose s now b h1 with h2 | h2
    · exact h h2
    · exact h2
  | poll now =>
    intro h1
    obtain ⟨_, f2, _, _⟩ := getStateChanged_frame s now
    show (getStateChanged s now).1._span = _
    rw [f2]
    exact h (getStateChanged_autoClose s now h1)
  | selectMax n => exact h
  | oneshotTime n => exact h
  | clear => intro h1; cases h1
  | config t m sp => intro h1; cases h1

/-- Along every sequence of public operations "armed implies Oneshot" is
preserved. -/
theorem run_armed_oneshot (ops : List Op) :
    ∀ s : AnyButton, (s.autoClose = true → s._span = OutSpan.SpanOneshot) →
      (run s ops).1.autoClose = true → (run s ops).1._span = OutSpan.SpanOneshot := by
  induction ops with
  | nil => intro s h; exact h
  | cons op ops ih =>
    intro s h
    rw [run_cons_fst]
    exact ih _ (step_armed_oneshot s op h)

/-- C17: in every state reached from construction by any sequence of the
public operations (`configButton`, `clear`, `setSelectMax`, `setOneshotTime`,
`loadState` with any level, `getStateChanged`), auto-close armed implies span
Oneshot; `getStateChanged()` never arms auto-close (from any state: armed
after the poll implies armed before it); and in a reached state with no change
pending a poll that finds the deadline passed leaves auto-close disarmed. -/
theorem armed_implies_oneshot (ops : List Op) (s : AnyButton) (now : Nat) :
    ((run AnyButton.new ops).1.autoClose = true →
      (run AnyButton.new ops).1._span = OutSpan.SpanOneshot) ∧
    ((getStateChanged s now).1.autoClose = true → s.autoClose = true) ∧
    ((run AnyButton.new ops).1.changed = false →
      (run AnyButton.new ops).1.closeRemain < u32 now →
      (getStateChanged (run AnyButton.new ops).1 now).1.autoClose = false) := by
  have hinv := run_armed_oneshot ops AnyButton.new (fun h => by cases h)
  refine ⟨hinv, getStateChanged_autoClose s now, ?_⟩
  intro hch hdl
  generalize (run AnyButton.new ops).1 = r at hinv hch hdl
  obtain ⟨ty, mode, sp, selmax, spanms, ls, ns, ch, ac, os, cr, lc, lr, anti⟩ := r
  simp only at hinv hch hdl
  subst hch
  cases ac
  · simp [getStateChanged]
  · have hsp : sp = OutSpan.SpanOneshot := hinv rfl
    subst hsp
    simp [getStateChanged, hdl]

/-! ## Select mode: the output and the ceiling -/

/-- The transition engine in Select mode, pending level 0 or 1, ceiling at
least 2: an output that is 0 or within `1 .. ceiling` stays so, a positive
output stays positive, and the output is positive whenever a rule fires. -/
theorem changeState_select_bound (s : AnyButton) (now : Nat)
    (hmode : s._mode = OutputMode.ModeSelect) (hns : s.nowState = 0 ∨ s.nowState = 1)
    (hsel : 2 ≤ s._selmax)
    (hout : s.outputState = 0 ∨ (1 ≤ s.outputState ∧ s.outputState ≤ (s._selmax : Int))) :
    ((changeState s now).outputState = 0 ∨
      (1 ≤ (changeState s now).outputState ∧
        (changeState s now).outputState ≤ ((changeState s now)._selmax : Int))) ∧
    (1 ≤ s.outputState → 1 ≤ (changeState s now).outputState) ∧
    ((changeStateSelect (changeStateDirect { s with changed := false })).changed = true →
      1 ≤ (changeState s now).outputState) := by
  obtain ⟨ty, mode, sp, selmax, spanms, ls, ns, ch, ac, os, cr, lc, lr, anti⟩ := s
  simp only at hmode hns hsel hout
  subst hmode
  have hsel' : (2 : Int) ≤ (selmax : Int) := by exact_mod_cast hsel
  cases ty <;> cases sp <;>
    simp [changeState, changeStateDirect, changeStateSelect, changeStateAutoOff] <;>
    (try split_ifs) <;> (try simp_all) <;> (try omega)

/-- A poll never changes the ceiling. -/
theorem getStateChanged_selmax (s : AnyButton) (now : Nat) :
    (getStateChanged s now).1._selmax = s._selmax := by
  obtain ⟨ty, mode, sp, selmax, spanms, ls, ns, ch, ac, os, cr, lc, lr, anti⟩ := s
  simp only [getStateChanged]
  split_ifs <;> rfl

/-- A sample of level 0 or 1 on a Select button with ceiling at least 2 keeps
the output 0 or within `1 .. ceiling`, keeps a positive output positive, and
makes it positive when it fires a transition. -/
theorem loadState_select_bound (s : AnyButton) (now : Nat) (b : Int)
    (hb : b = 0 ∨ b = 1) (hmode : s._mode = OutputMode.ModeSelect) (hsel : 2 ≤ s._selmax)
    (hout : s.outputState = 0 ∨ (1 ≤ s.outputState ∧ s.outputState ≤ (s._selmax : Int))) :
    ((loadState s now b).outputState = 0 ∨
      (1 ≤ (loadState s now b).outputState ∧
        (loadState s now b).outputState ≤ ((loadState s now b)._selmax : Int))) ∧
    (1 ≤ s.outputState → 1 ≤ (loadState s now b).outputState) ∧
    (firesTransition s now b = true → 1 ≤ (loadState s now b).outputState) := by
  by_cases he : debouncePass s now ∧ b ≠ s.lastState
  · obtain ⟨g1, g2, g3⟩ := changeState_select_bound
      { s with nowState := b, lastState := b } now hmode hb hsel hout
    rw [loadState_edge s now b he.1 he.2]
    refine ⟨g1, g2, ?_⟩
    intro hf
    simp only [firesTransition, Bool.and_eq_true] at hf
    exact g3 hf.2
  · obtain ⟨f1, _, _, _⟩ := loadState_noEdge s now b he
    obtain ⟨_, _, _, c4, _, _⟩ := loadState_config s now b
    rw [f1, c4]
    refine ⟨hout, fun h => h, ?_⟩
    intro hf
    simp only [firesTransition, Bool.and_eq_true, decide_eq_true_eq] at hf
    exact absurd ⟨hf.1.1, hf.1.2⟩ he

/-- Along samples of level 0 or 1, polls and ceiling changes that keep the
ceiling at or above the output, a Select button with ceiling at least 2 keeps
its output 0 or within `1 .. ceiling`; the output is positive at the end if it
was positive at the start or a transition occurred on the way. -/
theorem run_select_bound (ops : List Op) :
    ∀ s : AnyButton, s._mode = OutputMode.ModeSelect → 2 ≤ s._selmax →
      (s.outputState = 0 ∨ (1 ≤ s.outputState ∧ s.outputState ≤ (s._selmax : Int))) →
      ceilingKept s ops = true →
      ((run s ops).1.outputState = 0 ∨
        (1 ≤ (run s ops).1.outputState ∧
          (run s ops).1.outputState ≤ ((run s ops).1._selmax : Int))) ∧
      ((1 ≤ s.outputState ∨ transitionOccurred s ops = true) →
        1 ≤ (run s ops).1.outputState) := by
  induction ops with
  | nil =>
    intro s _ _ hout _
    refine ⟨hout, ?_⟩
    intro h
    rcases h with h | h
    · exact h
    · simp [transitionOccurred] at h
  | cons op ops ih =>
    intro s hmode hsel hout hk
    cases op with
    | load now b =>
      simp only [ceilingKept, Bool.and_eq_true, decide_eq_true_eq] at hk
      obtain ⟨g1, g2, g3⟩ := loadState_select_bound s now b hk.1 hmode hsel hout
      obtain ⟨_, c2, _, c4, _, _⟩ := loadState_config s now b
      obtain ⟨i1, i2⟩ := ih (loadState s now b) (c2.trans hmode) (c4 ▸ hsel) g1 hk.2
      rw [run_load]
      refine ⟨i1, ?_⟩
      intro h
      apply i2
      rcases h with h | h
      · exact Or.inl (g2 h)
      · simp only [transitionOccurred, Bool.or_eq_true] at h
        rcases h with h | h
        · exact Or.inl (g3 h)
        · exact Or.inr h
    | poll now =>
      simp only [ceilingKept] at hk
      obtain ⟨f1, _, _, _⟩ := getStateChanged_frame s now
      have fo := getStateChanged_outputState s now
      have fs := getStateChanged_selmax s now
      obtain ⟨i1, i2⟩ := ih (getStateChanged s now).1 (f1.trans hmode) (fs ▸ hsel)
        (by rw [fo, fs]; exact hout) hk
      rw [run_cons_fst]
      refine ⟨i1, ?_⟩
      intro h
      apply i2
      rcases h with h | h
      · exact Or.inl (by rw [fo]; exact h)
      · exact Or.inr h
    | selectMax n =>
      simp only [ceilingKept, Bool.and_eq_true, decide_eq_true_eq] at hk
      obtain ⟨⟨hn2, hn16, hno⟩, hk2⟩ := hk
      have e : u16 n = n := Nat.mod_eq_of_lt hn16
      have hs : (setSelectMax s n)._selmax = n := e
      have hout2 : (setSelectMax s n).outputState = 0 ∨
          (1 ≤ (setSelectMax s n).outputState ∧
            (setSelectMax s n).outputState ≤ ((setSelectMax s n)._selmax : Int)) := by
        rw [hs]
        rcases hout with h | h
        · exact Or.inl h
        · exact Or.inr ⟨h.1, hno⟩
      obtain ⟨i1, i2⟩ := ih (setSelectMax s n) hmode (by rw [hs]; exact hn2) hout2 hk2
      rw [run_cons_fst]
      refine ⟨i1, ?_⟩
      intro h
      apply i2
      rcases h with h | h
      · exact Or.inl h
      · exact Or.inr h
    | oneshotTime n => simp [ceilingKept] at hk
    | clear => simp [ceilingKept] at hk
    | config t m sp => simp [ceilingKept] at hk

/-- C18 (as amended): in Select output mode, in every state reached from a
freshly configured button with ceiling at least 2 by samples with levels in
{0,1}, polls and `setSelectMax(n)` calls with `2 ≤ n < 2^16` none of which
lowers the ceiling below the output value of the moment, once at least one
transition has occurred `1 ≤ getStateValue() ≤` the current select ceiling. -/
theorem select_output_within_ceiling (s0 : AnyButton) (type : InputType) (span : OutSpan)
    (ops : List Op) (hsel : 2 ≤ s0._selmax)
    (hkept : ceilingKept (configButton s0 type OutputMode.ModeSelect span) ops = true)
    (htr : transitionOccurred (configButton s0 type OutputMode.ModeSelect span) ops = true) :
    1 ≤ (getStateValue (run (configButton s0 type OutputMode.ModeSelect span) ops).1).2 ∧
    (getStateValue (run (configButton s0 type OutputMode.ModeSelect span) ops).1).2 ≤
      ((run (configButton s0 type OutputMode.ModeSelect span) ops).1._selmax : Int) := by
  obtain ⟨i1, i2⟩ := run_select_bound ops (configButton s0 type OutputMode.ModeSelect span)
    rfl hsel (Or.inl rfl) hkept
  have h1 := i2 (Or.inr htr)
  simp only [getStateValue]
  rcases i1 with h | h
  · omega
  · exact h

/-- Witness for C18: ceiling 3, three presses, then the ceiling raised to 5
and a fourth press; the output is 4. -/
theorem select_output_within_ceiling_witness :
    1 ≤ (getStateValue (run (configButton (setSelectMax AnyButton.new 3) InputType.TypePush
      OutputMode.ModeSelect OutSpan.SpanEver)
      [Op.load 10 1, Op.poll 11, Op.load 20 0, Op.load 30 1, Op.load 40 0, Op.load 50 1,
        Op.selectMax 5, Op.load 60 0, Op.load 70 1]).1).2 ∧
    (getStateValue (run (configButton (setSelectMax AnyButton.new 3) InputType.TypePush
      OutputMode.ModeSelect OutSpan.SpanEver)
      [Op.load 10 1, Op.poll 11, Op.load 20 0, Op.load 30 1, Op.load 40 0, Op.load 50 1,
        Op.selectMax 5, Op.load 60 0, Op.load 70 1]).1).2 ≤
      ((run (configButton (setSelectMax AnyButton.new 3) InputType.TypePush
      OutputMode.ModeSelect OutSpan.SpanEver)
      [Op.load 10 1, Op.poll 11, Op.load 20 0, Op.load 30 1, Op.load 40 0, Op.load 50 1,
        Op.selectMax 5, Op.load 60 0, Op.load 70 1]).1._selmax : Int) :=
  select_output_within_ceiling (setSelectMax AnyButton.new 3) InputType.TypePush
    OutSpan.SpanEver
    [Op.load 10 1, Op.poll 11, Op.load 20 0, Op.load 30 1, Op.load 40 0, Op.load 50 1,
      Op.selectMax 5, Op.load 60 0, Op.load 70 1] (by decide) (by decide) (by decide)

/-- C18 fails as stated: on a Push+Select button with ceiling 4, after three
presses (output 3) the call `setSelectMax(2)`, with `2 ≥ 2`, leaves the output
at 3, above the current ceiling 2. -/
theorem select_output_above_lowered_ceiling :
    transitionOccurred (configButton (setSelectMax AnyButton.new 4) InputType.TypePush
      OutputMode.ModeSelect OutSpan.SpanEver)
      [Op.load 10 1, Op.poll 11, Op.load 20 0, Op.load 30 1, Op.poll 31, Op.load 40 0,
        Op.load 50 1, Op.poll 51, Op.selectMax 2] = true ∧
    (getStateValue (run (configButton (setSelectMax AnyButton.new 4) InputType.TypePush
      OutputMode.ModeSelect OutSpan.SpanEver)
      [Op.load 10 1, Op.poll 11, Op.load 20 0, Op.load 30 1, Op.poll 31, Op.load 40 0,
        Op.load 50 1, Op.poll 51, Op.selectMax 2]).1).2 = 3 ∧
    (run (configButton (setSelectMax AnyButton.new 4) InputType.TypePush
      OutputMode.ModeSelect OutSpan.SpanEver)
      [Op.load 10 1, Op.poll 11, Op.load 20 0, Op.load 30 1, Op.poll 31, Op.load 40 0,
        Op.load 50 1, Op.poll 51, Op.selectMax 2]).1._selmax = 2 := by
  decide

/-! ## The last reported value -/

/-- When the transition engine leaves no change pending, none was pending
before and the auto-close flag is as it was. -/
theorem changeState_unfired (s : AnyButton) (now : Nat)
    (h : (changeState s now).changed = false) :
    s.changed = false ∧ (changeState s now).autoClose = s.autoClose := by
  obtain ⟨ty, mode, sp, selmax, spanms, ls, ns, ch, ac, os, cr, lc, lr, anti⟩ := s
  revert h
  cases mode <;> cases ty <;> cases sp <;> cases ch <;>
    simp [changeState, changeStateDirect, changeStateSelect, changeStateAutoOff] <;>
    (try split_ifs) <;> (try simp_all)

/-- A sample preserves the armed invariant. -/
theorem loadState_armedInv (s : AnyButton) (now : Nat) (b : Int) (h : ArmedInv s) :
    ArmedInv (loadState s now b) := by
  intro hac hch
  rw [loadState_lastResShot]
  by_cases he : debouncePass s now ∧ b ≠ s.lastState
  · rw [loadState_edge s now b he.1 he.2] at hac hch
    obtain ⟨u1, u2⟩ := changeState_unfired { s with nowState := b, lastState := b } now hch
    exact h (u2 ▸ hac) u1
  · obtain ⟨_, f2, f3, _⟩ := loadState_noEdge s now b he
    exact h (f3 ▸ hac) (f2 ▸ hch)

/-- A poll preserves the armed invariant. -/
theorem getStateChanged_armedInv (s : AnyButton) (now : Nat) (hv : ValueInv s)
    (h : ArmedInv s) : ArmedInv (getStateChanged s now).1 := by
  obtain ⟨_, _, i3, _⟩ := hv
  obtain ⟨ty, mode, sp, selmax, spanms, ls, ns, ch, ac, os, cr, lc, lr, anti⟩ := s
  simp only [ArmedInv] at h i3 ⊢
  simp only [getStateChanged]
  split_ifs <;> simp_all

/-- Samples of level 0 or 1 and polls preserve the value invariant and the
armed invariant. -/
theorem run_armedInv (ops : List Op) :
    ∀ s : AnyButton, (∀ op ∈ ops, Op.isSampleOrPoll op = true) → ValueInv s → ArmedInv s →
      ValueInv (run s ops).1 ∧ ArmedInv (run s ops).1 := by
  induction ops with
  | nil => intro s _ hv ha; exact ⟨hv, ha⟩
  | cons op ops ih =>
    intro s hops hv ha
    have hops1 : ∀ o ∈ ops, Op.isSampleOrPoll o = true := fun o ho =>
      hops o (List.mem_cons_of_mem _ ho)
    have hop : Op.isSampleOrPoll op = true := hops op (List.mem_cons_self _ _)
    cases op with
    | load now b =>
      simp only [Op.isSampleOrPoll, decide_eq_true_eq] at hop
      rw [run_load]
      exact ih _ hops1 (loadState_valueInv s now b hop hv) (loadState_armedInv s now b ha)
    | poll now =>
      rw [run_cons_fst]
      exact ih _ hops1 (getStateChanged_valueInv s now hv)
        (getStateChanged_armedInv s now hv ha)
    | selectMax n => simp [Op.isSampleOrPoll] at hop
    | oneshotTime n => simp [Op.isSampleOrPoll] at hop
    | clear => simp [Op.isSampleOrPoll] at hop
    | config t m sp => simp [Op.isSampleOrPoll] at hop

/-- C19: on a freshly configured button of any configuration, after any
sequence of `loadState` samples with levels in {0,1} and polls, whenever
`getStateChanged()` takes the auto-close branch (no change pending, auto-close
armed, deadline passed) the last reported value is at least 1, and the call
returns 0, records 0 as last reported and disarms; the path that returns -1
and records -1 is not taken. -/
theorem autoClose_never_swallowed (s0 : AnyButton) (type : InputType) (mode : OutputMode)
    (span : OutSpan) (ops : List Op) (now : Nat)
    (hops : ∀ op ∈ ops, Op.isSampleOrPoll op = true)
    (hch : (run (configButton s0 type mode span) ops).1.changed = false)
    (hac : (run (configButton s0 type mode span) ops).1.autoClose = true)
    (hdl : (run (configButton s0 type mode span) ops).1.closeRemain < u32 now) :
    1 ≤ (run (configButton s0 type mode span) ops).1.lastResShot ∧
    getStateChanged (run (configButton s0 type mode span) ops).1 now =
      ({ (run (configButton s0 type mode span) ops).1 with
        lastResShot := 0, autoClose := false }, 0) := by
  have hv0 : ValueInv (configButton s0 type mode span) := by
    simp [ValueInv, configButton_mk]
  have ha0 : ArmedInv (configButton s0 type mode span) := by
    intro h
    cases h
  obtain ⟨_, ha⟩ := run_armedInv ops _ hops hv0 ha0
  have hsp := run_armed_oneshot ops (configButton s0 type mode span) (fun h => by cases h) hac
  have hlr := ha hac hch
  revert hlr hsp hdl hac hch
  generalize (run (configButton s0 type mode span) ops).1 = r
  intro hch hac hdl hsp hlr
  refine ⟨hlr, ?_⟩
  obtain ⟨ty, md, sp, selmax, spanms, ls, ns, ch, ac, os, cr, lc, lr, anti⟩ := r
  simp only at hch hac hdl hsp hlr
  subst hch hac hsp
  have hne : lr ≠ 0 := by omega
  simp [getStateChanged, hdl, hne]

/-- Witness for C19: a Direct+Oneshot button pressed at 10 ms and polled at
11 ms; the poll at 300 ms takes the auto-close branch. -/
theorem autoClose_never_swallowed_witness :
    1 ≤ (run (configButton AnyButton.new InputType.TypePush OutputMode.ModeDirect
      OutSpan.SpanOneshot) [Op.load 10 1, Op.poll 11]).1.lastResShot ∧
    getStateChanged (run (configButton AnyButton.new InputType.TypePush OutputMode.ModeDirect
      OutSpan.SpanOneshot) [Op.load 10 1, Op.poll 11]).1 300 =
      ({ (run (configButton AnyButton.new InputType.TypePush OutputMode.ModeDirect
        OutSpan.SpanOneshot) [Op.load 10 1, Op.poll 11]).1 with
        lastResShot := 0, autoClose := false }, 0) :=
  autoClose_never_swallowed AnyButton.new InputType.TypePush OutputMode.ModeDirect
    OutSpan.SpanOneshot [Op.load 10 1, Op.poll 11] 300 (by decide) (by decide) (by decide)
    (by decide)

/-- Under the two invariants a poll that returns -1 leaves the last reported
value as it was. -/
theorem getStateChanged_silent (s : AnyButton) (now : Nat) (hv : ValueInv s)
    (ha : ArmedInv s) (h : (getStateChanged s now).2 = -1) :
    (getStateChanged s now).1.lastResShot = s.lastResShot := by
  obtain ⟨_, _, i3, _⟩ := hv
  obtain ⟨ty, mode, sp, selmax, spanms, ls, ns, ch, ac, os, cr, lc, lr, anti⟩ := s
  simp only [ArmedInv] at ha i3
  revert h
  simp only [getStateChanged]
  split_ifs <;> simp_all
  omega

/-- After a poll under the two invariants the last reported value is the
polled value, or the previous one if the poll returned -1. -/
theorem getStateChanged_lastReported (s : AnyButton) (now : Nat) (hv : ValueInv s)
    (ha : ArmedInv s) :
    (getStateChanged s now).1.lastResShot =
      if (getStateChanged s now).2 = -1 then s.lastResShot else (getStateChanged s now).2 := by
  by_cases h : (getStateChanged s now).2 = -1
  · rw [if_pos h]
    exact getStateChanged_silent s now hv ha h
  · rw [if_neg h]
    exact (getStateChanged_reported s now h).1

/-- Along samples of level 0 or 1 and polls, from a state satisfying the two
invariants: the last reported value at the end is the most recent polled value
other than -1 (the starting one if there is none), and the polled values other
than -1 form a chain of pairwise different neighbours that starts away from
the starting last reported value. -/
theorem run_lastReported (ops : List Op) :
    ∀ s : AnyButton, (∀ op ∈ ops, Op.isSampleOrPoll op = true) → ValueInv s → ArmedInv s →
      (run s ops).1.lastResShot = lastReported s.lastResShot (run s ops).2 ∧
      List.Chain' (fun a b : Int => a ≠ b)
        ((run s ops).2.filter (fun v => decide (v ≠ -1))) ∧
      ∀ h ∈ ((run s ops).2.filter (fun v => decide (v ≠ -1))).head?, h ≠ s.lastResShot := by
  induction ops with
  | nil => intro s _ _ _; simp [run, lastReported]
  | cons op ops ih =>
    intro s hops hv ha
    have hops1 : ∀ o ∈ ops, Op.isSampleOrPoll o = true := fun o ho =>
      hops o (List.mem_cons_of_mem _ ho)
    have hop : Op.isSampleOrPoll op = true := hops op (List.mem_cons_self _ _)
    cases op with
    | load now b =>
      simp only [Op.isSampleOrPoll, decide_eq_true_eq] at hop
      rw [run_load, ← loadState_lastResShot s now b]
      exact ih _ hops1 (loadState_valueInv s now b hop hv) (loadState_armedInv s now b ha)
    | poll now =>
      obtain ⟨i1, i2, i3⟩ := ih _ hops1 (getStateChanged_valueInv s now hv)
        (getStateChanged_armedInv s now hv ha)
      have hl := getStateChanged_lastReported s now hv ha
      rw [run_poll]
      by_cases hr : (getStateChanged s now).2 = -1
      · rw [if_pos hr] at hl
        rw [hl] at i1 i3
        refine ⟨?_, ?_, ?_⟩
        · rw [i1]
          simp [lastReported, hr]
        · simpa [hr] using i2
        · simpa [hr] using i3
      · rw [if_neg hr] at hl
        rw [hl] at i1 i3
        have hne := (getStateChanged_reported s now hr).2
        refine ⟨?_, ?_, ?_⟩
        · rw [i1]
          simp [lastReported, hr]
        · simp only [List.filter_cons, hr, ne_eq, not_false_eq_true, decide_True, if_true]
          rw [List.chain'_cons']
          exact ⟨fun y hy => (i3 y hy).symm, i2⟩
        · simp only [List.filter_cons, hr, ne_eq, not_false_eq_true, decide_True, if_true,
            List.head?_cons, Option.mem_def, Option.some.injEq]
          intro h hh
          rw [← hh]
          exact hne
    | selectMax n => simp [Op.isSampleOrPoll] at hop
    | oneshotTime n => simp [Op.isSampleOrPoll] at hop
    | clear => simp [Op.isSampleOrPoll] at hop
    | config t m sp => simp [Op.isSampleOrPoll] at hop

/-- C20: on a freshly configured button of any configuration, after any
sequence of `loadState` samples with levels in {0,1} and polls, the last
reported value equals the most recent result of `getStateChanged()` other
than -1, or -1 if there is none since the reset; and any two successive
reported values (results other than -1, whatever number of -1 results lies
between them) differ. -/
theorem lastResShot_is_last_report (s0 : AnyButton) (type : InputType) (mode : OutputMode)
    (span : OutSpan) (ops : List Op)
    (hops : ∀ op ∈ ops, Op.isSampleOrPoll op = true) :
    (run (configButton s0 type mode span) ops).1.lastResShot =
      lastReported (-1) (run (configButton s0 type mode span) ops).2 ∧
    List.Chain' (fun a b : Int => a ≠ b)
      ((run (configButton s0 type mode span) ops).2.filter (fun v => decide (v ≠ -1))) := by
  have hv0 : ValueInv (configButton s0 type mode span) := by
    simp [ValueInv, configButton_mk]
  have ha0 : ArmedInv (configButton s0 type mode span) := by
    intro h
    cases h
  obtain ⟨i1, i2, _⟩ := run_lastReported ops _ hops hv0 ha0
  exact ⟨i1, i2⟩

/-- Witness for C20: a Direct+Oneshot button (oneshot time 200) pressed,
polled three times across the deadline, released and polled; the polled values
are 2, -1, 0, 1 and the last reported value is 1. -/
theorem lastResShot_is_last_report_witness :
    (run (configButton AnyButton.new InputType.TypePush OutputMode.ModeDirect
      OutSpan.SpanOneshot)
      [Op.load 10 1, Op.poll 11, Op.poll 100, Op.poll 300, Op.load 400 0,
        Op.poll 401]).1.lastResShot =
      lastReported (-1) (run (configButton AnyButton.new InputType.TypePush
        OutputMode.ModeDirect OutSpan.SpanOneshot)
        [Op.load 10 1, Op.poll 11, Op.poll 100, Op.poll 300, Op.load 400 0, Op.poll 401]).2 ∧
    List.Chain' (fun a b : Int => a ≠ b)
      ((run (configButton AnyButton.new InputType.TypePush OutputMode.ModeDirect
        OutSpan.SpanOneshot)
        [Op.load 10 1, Op.poll 11, Op.poll 100, Op.poll 300, Op.load 400 0,
          Op.poll 401]).2.filter (fun v => decide (v ≠ -1))) :=
  lastResShot_is_last_report AnyButton.new InputType.TypePush OutputMode.ModeDirect
    OutSpan.SpanOneshot
    [Op.load 10 1, Op.poll 11, Op.poll 100, Op.poll 300, Op.load 400 0, Op.poll 401]
    (by decide)
